import Mathlib

/-!
# gift_shop: the cart entity and the order repository

A shallow embedding of

* `src/features/cart/domain/entities/Cart.js` (classes `CartItem` and `Cart`), and
* `backend/src/infrastructure/repositories/PostgresOrderRepository.js`,
* `backend/src/domain/usecases/OrderUseCases.js`, and
* `backend/src/presentation/controllers/OrderController.js`,

followed by the properties proved about them.

Conventions of the embedding.

* JavaScript numbers are integers (`Int`): quantities are counts and prices are amounts
  in the smallest currency unit. Floating point rounding is outside the model.
* Product ids are strings, compared with `===`.
* A method that mutates `this` becomes a function returning the new object. The items
  of a cart are distinct objects, so mutating the object returned by `Array.find`
  changes exactly the first element that satisfies the predicate.
* An omitted argument that has a default value is `none`.
-/

set_option autoImplicit false
set_option maxRecDepth 20000

namespace GiftShop

/-! ## Cart.js -/

/-- The part of a product the cart entity reads: `product.id` and `product.price`. -/
structure Product where
  id : String
  price : Int
  deriving DecidableEq, Repr

/-- Class `CartItem`: the fields set by its constructor. -/
structure CartItem where
  id : String
  product : Product
  quantity : Int
  deriving DecidableEq, Repr

namespace CartItem

/-- `constructor({ product, quantity = 1 })`. -/
def new (product : Product) (quantity : Option Int) : CartItem :=
  { id := product.id, product := product, quantity := quantity.getD 1 }

/-- `getTotalPrice()`: `this.product.price * this.quantity`. -/
def getTotalPrice (self : CartItem) : Int :=
  self.product.price * self.quantity

/-- `increaseQuantity(amount = 1)`: `this.quantity += amount`. -/
def increaseQuantity (self : CartItem) (amount : Option Int) : CartItem :=
  { self with quantity := self.quantity + amount.getD 1 }

/-- `decreaseQuantity(amount = 1)`: `this.quantity = Math.max(0, this.quantity - amount)`. -/
def decreaseQuantity (self : CartItem) (amount : Option Int) : CartItem :=
  { self with quantity := max 0 (self.quantity - amount.getD 1) }

/-- `setQuantity(quantity)`: `this.quantity = Math.max(0, quantity)`. -/
def setQuantity (self : CartItem) (quantity : Int) : CartItem :=
  { self with quantity := max 0 quantity }

end CartItem

/-- Mutation of the object returned by `Array.prototype.find`: the first element that
satisfies `p` is replaced by `f` of it, every other element stays as it is. -/
def modifyFirst {α : Type} (p : α → Bool) (f : α → α) : List α → List α
  | [] => []
  | x :: xs => if p x then f x :: xs else x :: modifyFirst p f xs

/-- Class `Cart`: the array `this.items`. -/
structure Cart where
  items : List CartItem
  deriving DecidableEq, Repr

namespace Cart

/-- `new Cart()`: the constructor with its default argument `items = []`. -/
def empty : Cart := { items := [] }

/-- `addItem(product, quantity = 1)`. -/
def addItem (self : Cart) (product : Product) (quantity : Option Int) : Cart :=
  let quantity : Int := quantity.getD 1
  match self.items.find? (fun item => item.id == product.id) with
  | some _ =>
    { items := modifyFirst (fun item => item.id == product.id)
        (fun existingItem => existingItem.increaseQuantity (some quantity)) self.items }
  | none => { items := self.items ++ [CartItem.new product (some quantity)] }

/-- `removeItem(productId)`: `this.items.filter((item) => item.id !== productId)`. -/
def removeItem (self : Cart) (productId : String) : Cart :=
  { items := self.items.filter (fun item => item.id != productId) }

/-- `updateQuantity(productId, quantity)`. -/
def updateQuantity (self : Cart) (productId : String) (quantity : Int) : Cart :=
  match self.items.find? (fun item => item.id == productId) with
  | some _ =>
    if quantity ≤ 0 then
      self.removeItem productId
    else
      { items := modifyFirst (fun item => item.id == productId)
          (fun item => item.setQuantity quantity) self.items }
  | none => self

/-- `clear()`: `this.items = []`. -/
def clear (_self : Cart) : Cart := { items := [] }

/-- `getTotalItems()`: `reduce((total, item) => total + item.quantity, 0)`. -/
def getTotalItems (self : Cart) : Int :=
  self.items.foldl (fun total item => total + item.quantity) 0

/-- `getTotalPrice()`: `reduce((total, item) => total + item.getTotalPrice(), 0)`. -/
def getTotalPrice (self : Cart) : Int :=
  self.items.foldl (fun total item => total + item.getTotalPrice) 0

/-- `isEmpty()`: `this.items.length === 0`. -/
def isEmpty (self : Cart) : Bool :=
  self.items.length == 0

end Cart

/-- The object that `getSummary()` returns. -/
structure CartSummary where
  totalItems : Int
  totalPrice : Int
  formattedTotalPrice : String
  isEmpty : Bool
  itemCount : Nat
  deriving DecidableEq, Repr

/-- `getFormattedTotalPrice()`: "$" followed by `this.getTotalPrice().toFixed(2)`, which
for an integer amount is the amount followed by ".00". -/
def Cart.getFormattedTotalPrice (self : Cart) : String :=
  "$" ++ toString self.getTotalPrice ++ ".00"

/-- `getSummary()`. -/
def Cart.getSummary (self : Cart) : CartSummary :=
  { totalItems := self.getTotalItems
    totalPrice := self.getTotalPrice
    formattedTotalPrice := self.getFormattedTotalPrice
    isEmpty := self.isEmpty
    itemCount := self.items.length }

/-- One call of a mutating method of `Cart`, with its arguments. -/
inductive CartOp where
  | addItem (product : Product) (quantity : Option Int)
  | removeItem (productId : String)
  | updateQuantity (productId : String) (quantity : Int)
  | clear
  deriving DecidableEq, Repr

/-- The cart after one call. -/
def Cart.step (self : Cart) : CartOp → Cart
  | .addItem product quantity => self.addItem product quantity
  | .removeItem productId => self.removeItem productId
  | .updateQuantity productId quantity => self.updateQuantity productId quantity
  | .clear => self.clear

/-- The cart after a sequence of calls, first call first. -/
def Cart.run (self : Cart) (ops : List CartOp) : Cart :=
  ops.foldl Cart.step self

/-- The quantity of an `addItem` call is a positive integer (an omitted quantity is the
default 1); the other calls are not constrained. -/
def CartOp.addsPositive : CartOp → Bool
  | .addItem _ quantity => decide (1 ≤ quantity.getD 1)
  | _ => true

/-- The ids of the items of a cart, in item order. -/
def Cart.ids (self : Cart) : List String :=
  self.items.map (fun item => item.id)

/-! ## PostgresOrderRepository.js

Values, rows and the database connection.

* A JavaScript value is a `JsVal`; an object or array that the repository only passes
  on (an address, a product snapshot) is `JsVal.obj`, identified by its JSON text.
* `parseFloat`, `JSON.stringify` and `JSON.parse` are the fields of `Builtins`.
* A connection is a `Client`: the committed tables, the working copy of an open
  transaction, the statements sent so far, and the outcomes the database has decided
  for the statements to come (`faults`: `some e` makes the next statement throw `e`
  and have no effect). An `await` is a call that returns the result, or the error
  thrown, together with the connection afterwards.
* The pool that `findById`, `findAll`, `update` and `getOrderStatistics` query directly
  is a `Pool`: the statements sent so far and the answer of the database to each
  statement.
* `page` and `limit` of `findAll` are integers.
-/

/-- A JavaScript value. -/
inductive JsVal where
  | undefined
  | null
  | bool (b : Bool)
  | num (n : Int)
  | str (s : String)
  | obj (json : String)
  deriving DecidableEq, Repr

/-- Truthiness of a value, as `&&` and `? :` test it. -/
def JsVal.truthy : JsVal → Bool
  | .undefined => false
  | .null => false
  | .bool b => b
  | .num n => n != 0
  | .str s => s != ""
  | .obj _ => true

/-- A thrown error: its `name` and `message`. -/
structure JsError where
  name : String
  message : String
  deriving DecidableEq, Repr

/-- The `TypeError` of reading property `prop` of `undefined`. -/
def JsError.undefinedProperty (prop : String) : JsError :=
  { name := "TypeError"
    message := "Cannot read properties of undefined (reading '" ++ prop ++ "')" }

/-- The built-in functions the repository calls. -/
structure Builtins where
  parseFloat : JsVal → JsVal
  jsonStringify : JsVal → JsVal
  jsonParse : String → Except JsError JsVal

/-- One element of `orderData.items`. -/
structure OrderItemData where
  id : JsVal
  productId : JsVal
  quantity : JsVal
  unitPrice : JsVal
  totalPrice : JsVal
  deriving DecidableEq, Repr

/-- The payload `orderData` of `create`. -/
structure OrderData where
  id : JsVal
  customerName : JsVal
  customerEmail : JsVal
  customerPhone : JsVal
  billingAddress : JsVal
  shippingAddress : JsVal
  paymentMethod : JsVal
  paymentStatus : JsVal
  orderStatus : JsVal
  notes : JsVal
  subtotal : JsVal
  taxAmount : JsVal
  shippingCost : JsVal
  discountAmount : JsVal
  totalAmount : JsVal
  items : List OrderItemData
  deriving DecidableEq, Repr

/-- A row of table `order_items`, or one element of an `order_items` array; `product`
is the joined product snapshot (`undefined` where the query does not build one). -/
structure OrderItemRow where
  id : JsVal
  order_id : JsVal
  product_id : JsVal
  quantity : JsVal
  unit_price : JsVal
  total_price : JsVal
  product : JsVal
  deriving DecidableEq, Repr

/-- A row of table `orders` as a query returns it; `order_items` is `none` when the row
has no such key (or it is `null`). -/
structure OrderRow where
  id : JsVal
  customer_name : JsVal
  customer_email : JsVal
  customer_phone : JsVal
  billing_address : JsVal
  shipping_address : JsVal
  payment_method : JsVal
  payment_status : JsVal
  order_status : JsVal
  notes : JsVal
  tracking_number : JsVal
  subtotal : JsVal
  tax_amount : JsVal
  shipping_cost : JsVal
  discount_amount : JsVal
  total_amount : JsVal
  created_at : JsVal
  updated_at : JsVal
  order_items : Option (List OrderItemRow)
  deriving DecidableEq, Repr

/-- The object `{}`: every property is `undefined`. -/
def OrderRow.blank : OrderRow :=
  { id := .undefined, customer_name := .undefined, customer_email := .undefined,
    customer_phone := .undefined, billing_address := .undefined,
    shipping_address := .undefined, payment_method := .undefined,
    payment_status := .undefined, order_status := .undefined, notes := .undefined,
    tracking_number := .undefined, subtotal := .undefined, tax_amount := .undefined,
    shipping_cost := .undefined, discount_amount := .undefined, total_amount := .undefined,
    created_at := .undefined, updated_at := .undefined, order_items := none }

/-- Modelled from the spec: the `OrderItem` entity (`domain/entities/OrderItem.js` is not
among the sources), a plain data holder of the fields its constructor is given. -/
structure OrderItem where
  id : JsVal
  productId : JsVal
  quantity : JsVal
  unitPrice : JsVal
  totalPrice : JsVal
  product : JsVal
  deriving DecidableEq, Repr

/-- Modelled from the spec: the `Order` entity (`domain/entities/Order.js` is not among
the sources), a plain data holder of the fields its constructor is given. -/
structure Order where
  id : JsVal
  customerName : JsVal
  customerEmail : JsVal
  customerPhone : JsVal
  billingAddress : JsVal
  shippingAddress : JsVal
  paymentMethod : JsVal
  paymentStatus : JsVal
  orderStatus : JsVal
  notes : JsVal
  trackingNumber : JsVal
  subtotal : JsVal
  taxAmount : JsVal
  shippingCost : JsVal
  discountAmount : JsVal
  totalAmount : JsVal
  items : List OrderItem
  createdAt : JsVal
  updatedAt : JsVal
  deriving DecidableEq, Repr

/-- A statement as `query(text, values)` sends it. -/
structure Query where
  text : String
  values : List JsVal
  deriving DecidableEq, Repr

/-- The result object of `query`: `rows` and `rowCount`. -/
structure QueryResult (ρ : Type) where
  rows : List ρ
  rowCount : Nat

/-- The two tables. -/
structure Store where
  orders : List OrderRow
  order_items : List OrderItemRow
  deriving DecidableEq, Repr

/-- A connection taken from the pool. -/
structure Client where
  committed : Store
  txn : Option Store
  log : List Query
  faults : List (Option JsError)
  released : Nat
  deriving DecidableEq, Repr

/-- The text of the order insert in `create`. -/
def orderQuery : String := "
        INSERT INTO orders (
          id, customer_name, customer_email, customer_phone,
          billing_address, shipping_address, payment_method,
          payment_status, order_status, notes, subtotal,
          tax_amount, shipping_cost, discount_amount, total_amount
        ) VALUES ($1, $2, $3, $4, $5, $6, $7, $8, $9, $10, $11, $12, $13, $14, $15)
        RETURNING *
      "

/-- The text of the item insert in `create`. -/
def itemQuery : String := "
          INSERT INTO order_items (
            id, order_id, product_id, quantity, unit_price, total_price
          ) VALUES ($1, $2, $3, $4, $5, $6)
          RETURNING *
        "

/-- A value as the driver binds it to a placeholder: `undefined` is sent as `NULL`. -/
def sqlParam : JsVal → JsVal
  | .undefined => .null
  | v => v

/-- The row that the order insert stores and returns: the fifteen bound values in the
order of the column list; the columns outside the list are `NULL`. -/
def orderRowOfValues (values : List JsVal) : OrderRow :=
  let col := fun (i : Nat) => sqlParam (values.getD i .undefined)
  { id := col 0, customer_name := col 1, customer_email := col 2, customer_phone := col 3,
    billing_address := col 4, shipping_address := col 5, payment_method := col 6,
    payment_status := col 7, order_status := col 8, notes := col 9,
    tracking_number := .null, subtotal := col 10, tax_amount := col 11,
    shipping_cost := col 12, discount_amount := col 13, total_amount := col 14,
    created_at := .null, updated_at := .null, order_items := none }

/-- The row that the item insert stores and returns: the six bound values in the order
of the column list. -/
def itemRowOfValues (values : List JsVal) : OrderItemRow :=
  let col := fun (i : Nat) => sqlParam (values.getD i .undefined)
  { id := col 0, order_id := col 1, product_id := col 2, quantity := col 3,
    unit_price := col 4, total_price := col 5, product := .undefined }

/-- The text of the first statement of `delete`. -/
def deleteItemsQuery : String := "DELETE FROM order_items WHERE order_id = $1"

/-- The text of the second statement of `delete`. -/
def deleteOrderQuery : String := "DELETE FROM orders WHERE id = $1 RETURNING *"

/-- The SQL comparison `column = value` of a `WHERE` clause: it holds when both sides are
the same value and that value is not `NULL`. -/
def sqlEq (column value : JsVal) : Bool :=
  column != .null && column == value

namespace Client

/-- The tables as the next statement sees them: the working copy of the open
transaction, or the committed tables. -/
def view (c : Client) : Store :=
  c.txn.getD c.committed

/-- A statement goes out: it is logged, and the database's next outcome is consumed.
The result is the error the statement throws, if it does. -/
def send (c : Client) (q : Query) : Option JsError × Client :=
  (c.faults.head?.join, { c with log := c.log ++ [q], faults := c.faults.tail })

/-- A write to the tables: to the working copy of the open transaction, or, outside a
transaction, directly to the committed tables. -/
def write (c : Client) (f : Store → Store) : Client :=
  match c.txn with
  | some w => { c with txn := some (f w) }
  | none => { c with committed := f c.committed }

/-- The effect of a transaction control statement that succeeds. `BEGIN` opens a
working copy of the committed tables, `COMMIT` makes the working copy the committed
tables, `ROLLBACK` drops it. -/
def control (c : Client) (text : String) : Client :=
  if text = "BEGIN" then
    match c.txn with
    | some _ => c
    | none => { c with txn := some c.committed }
  else if text = "COMMIT" then
    match c.txn with
    | some w => { c with committed := w, txn := none }
    | none => c
  else if text = "ROLLBACK" then
    { c with txn := none }
  else c

/-- `await client.query(text)` for a statement without values and without rows. -/
def query (c : Client) (text : String) : Except JsError Unit × Client :=
  match c.send { text := text, values := [] } with
  | (some error, c) => (.error error, c)
  | (none, c) => (.ok (), c.control text)

/-- `await client.query(text, values)` for a statement on table `orders`. -/
def queryOrders (c : Client) (text : String) (values : List JsVal) :
    Except JsError (QueryResult OrderRow) × Client :=
  match c.send { text := text, values := values } with
  | (some error, c) => (.error error, c)
  | (none, c) =>
    if text = orderQuery then
      let row := orderRowOfValues values
      (.ok { rows := [row], rowCount := 1 },
        c.write (fun s => { s with orders := s.orders ++ [row] }))
    else if text = deleteOrderQuery then
      let key := sqlParam (values.getD 0 .undefined)
      let deleted := c.view.orders.filter (fun row => sqlEq row.id key)
      (.ok { rows := deleted, rowCount := deleted.length },
        c.write (fun s => { s with orders := s.orders.filter (fun row => !sqlEq row.id key) }))
    else (.ok { rows := [], rowCount := 0 }, c)

/-- `await client.query(text, values)` for a statement on table `order_items`. -/
def queryItems (c : Client) (text : String) (values : List JsVal) :
    Except JsError (QueryResult OrderItemRow) × Client :=
  match c.send { text := text, values := values } with
  | (some error, c) => (.error error, c)
  | (none, c) =>
    if text = itemQuery then
      let row := itemRowOfValues values
      (.ok { rows := [row], rowCount := 1 },
        c.write (fun s => { s with order_items := s.order_items ++ [row] }))
    else if text = deleteItemsQuery then
      let key := sqlParam (values.getD 0 .undefined)
      let deleted := c.view.order_items.filter (fun row => sqlEq row.order_id key)
      (.ok { rows := [], rowCount := deleted.length },
        c.write (fun s =>
          { s with order_items := s.order_items.filter (fun row => !sqlEq row.order_id key) }))
    else (.ok { rows := [], rowCount := 0 }, c)

/-- `client.release()`. -/
def release (c : Client) : Client :=
  { c with released := c.released + 1 }

end Client

/-- One row of the result of the statistics query. -/
structure StatisticsRow where
  total_orders : JsVal
  total_revenue : JsVal
  average_order_value : JsVal
  completed_orders : JsVal
  pending_orders : JsVal
  cancelled_orders : JsVal
  deriving DecidableEq, Repr

/-- The connection pool as `findById`, `findAll`, `update` and `getOrderStatistics` use
it: the statements sent so far, and what the database answers to a statement (the
result, or the error thrown). -/
structure Pool where
  log : List Query
  answer : Query → Except JsError (QueryResult OrderRow)
  answerStatistics : Query → Except JsError (QueryResult StatisticsRow)

namespace Pool

/-- `await pool.query(text, values)` for a statement that returns order rows. -/
def query (pool : Pool) (text : String) (values : List JsVal) :
    Except JsError (QueryResult OrderRow) × Pool :=
  (pool.answer { text := text, values := values },
    { pool with log := pool.log ++ [{ text := text, values := values }] })

/-- `await pool.query(text)` for the statistics query, sent without values. -/
def queryStatistics (pool : Pool) (text : String) :
    Except JsError (QueryResult StatisticsRow) × Pool :=
  (pool.answerStatistics { text := text, values := [] },
    { pool with log := pool.log ++ [{ text := text, values := [] }] })

end Pool

/-- The argument of `findAll`; a key that is missing is `undefined`, and `none` for the
numbers `page` and `limit`. -/
structure FindAllFilters where
  page : Option Int
  limit : Option Int
  status : JsVal
  userId : JsVal
  startDate : JsVal
  endDate : JsVal
  deriving DecidableEq, Repr

/-- The default argument `{}` of `findAll`. -/
def FindAllFilters.empty : FindAllFilters :=
  { page := none, limit := none, status := .undefined, userId := .undefined,
    startDate := .undefined, endDate := .undefined }

/-- Truthiness of a number that may be missing: `undefined` and `0` are falsy. -/
def numTruthy : Option Int → Bool
  | none => false
  | some n => n != 0

/-- The argument `updateData` of `update`: the four keys `update` reads (`undefined`
when missing) and the other keys the object carries. -/
structure UpdateData where
  orderStatus : JsVal
  paymentStatus : JsVal
  notes : JsVal
  trackingNumber : JsVal
  otherKeys : List (String × JsVal)
  deriving DecidableEq, Repr

/-- `String.prototype.replace` with a one-character pattern: the first occurrence of
`c` is replaced, the rest of the text stays. -/
def replaceFirst (c : Char) (replacement : List Char) : List Char → List Char
  | [] => []
  | x :: xs => if x = c then replacement ++ xs else x :: replaceFirst c replacement xs

namespace PostgresOrderRepository

/-- The expression for `orderItems` in `_mapToOrder`:
`row.order_items && row.order_items[0].id ? row.order_items.map(...) : []`.
An array is truthy also when it is empty, and `[][0]` is `undefined`, whose `id`
cannot be read. -/
def mapOrderItems (js : Builtins) (order_items : Option (List OrderItemRow)) :
    Except JsError (List OrderItem) :=
  match order_items with
  | none => .ok []
  | some [] => .error (JsError.undefinedProperty "id")
  | some (first :: rest) =>
    if first.id.truthy then
      .ok ((first :: rest).map (fun item =>
        { id := item.id
          productId := item.product_id
          quantity := item.quantity
          unitPrice := js.parseFloat item.unit_price
          totalPrice := js.parseFloat item.total_price
          product := item.product }))
    else .ok []

/-- The expression `typeof v === "string" ? JSON.parse(v) : v`. -/
def parseIfString (js : Builtins) (v : JsVal) : Except JsError JsVal :=
  match v with
  | .str s => js.jsonParse s
  | v => .ok v

/-- `_mapToOrder(row)`. -/
def _mapToOrder (js : Builtins) (row : OrderRow) : Except JsError Order :=
  match mapOrderItems js row.order_items with
  | .error error => .error error
  | .ok orderItems =>
    match parseIfString js row.billing_address with
    | .error error => .error error
    | .ok billingAddress =>
      match parseIfString js row.shipping_address with
      | .error error => .error error
      | .ok shippingAddress =>
        .ok
          { id := row.id
            customerName := row.customer_name
            customerEmail := row.customer_email
            customerPhone := row.customer_phone
            billingAddress := billingAddress
            shippingAddress := shippingAddress
            paymentMethod := row.payment_method
            paymentStatus := row.payment_status
            orderStatus := row.order_status
            notes := row.notes
            trackingNumber := row.tracking_number
            subtotal := js.parseFloat row.subtotal
            taxAmount := js.parseFloat row.tax_amount
            shippingCost := js.parseFloat row.shipping_cost
            discountAmount := js.parseFloat row.discount_amount
            totalAmount := js.parseFloat row.total_amount
            items := orderItems
            createdAt := row.created_at
            updatedAt := row.updated_at }

/-- The array `orderValues` of `create`. -/
def orderValues (js : Builtins) (orderData : OrderData) : List JsVal :=
  [ orderData.id,
    orderData.customerName,
    orderData.customerEmail,
    orderData.customerPhone,
    js.jsonStringify orderData.billingAddress,
    js.jsonStringify orderData.shippingAddress,
    orderData.paymentMethod,
    orderData.paymentStatus,
    orderData.orderStatus,
    orderData.notes,
    orderData.subtotal,
    orderData.taxAmount,
    orderData.shippingCost,
    orderData.discountAmount,
    orderData.totalAmount ]

/-- The array `itemValues` of `create` for one item, with `order.id` already read. -/
def itemValues (orderId : JsVal) (item : OrderItemData) : List JsVal :=
  [item.id, orderId, item.productId, item.quantity, item.unitPrice, item.totalPrice]

/-- The loop `for (const item of orderData.items)` of `create`, from the items still to
insert, the array `orderItems` so far and the connection. `order` is `rows[0]` of the
order insert, `none` when it is `undefined`; reading `order.id` then throws. The item
insert returns its one row, which is the `rows[0]` pushed onto `orderItems`. -/
def insertItems (order : Option OrderRow) :
    List OrderItemData → List OrderItemRow → Client →
      Except JsError (List OrderItemRow) × Client
  | [], orderItems, client => (.ok orderItems, client)
  | item :: rest, orderItems, client =>
    match order with
    | none => (.error (JsError.undefinedProperty "id"), client)
    | some row =>
      match client.queryItems itemQuery (itemValues row.id item) with
      | (.error error, client) => (.error error, client)
      | (.ok itemResult, client) =>
        insertItems order rest (orderItems ++ itemResult.rows.take 1) client

/-- The `try` block of `create`. The row handed to `_mapToOrder` is
`{ ...order, order_items: orderItems }`; spreading `undefined` gives `{}`. -/
def createTry (js : Builtins) (orderData : OrderData) (client : Client) :
    Except JsError Order × Client :=
  match client.query "BEGIN" with
  | (.error error, client) => (.error error, client)
  | (.ok _, client) =>
    match client.queryOrders orderQuery (orderValues js orderData) with
    | (.error error, client) => (.error error, client)
    | (.ok orderResult, client) =>
      let order := orderResult.rows.head?
      match insertItems order orderData.items [] client with
      | (.error error, client) => (.error error, client)
      | (.ok orderItems, client) =>
        match client.query "COMMIT" with
        | (.error error, client) => (.error error, client)
        | (.ok _, client) =>
          (_mapToOrder js { order.getD OrderRow.blank with order_items := some orderItems },
            client)

/-- `create(orderData)` on the connection `client` that `pool.connect()` returned: the
`try` block, the `catch` block (`ROLLBACK`, then the caught error is thrown again) and
the `finally` block (`client.release()`). -/
def create (js : Builtins) (orderData : OrderData) (client : Client) :
    Except JsError Order × Client :=
  match createTry js orderData client with
  | (.ok order, client) => (.ok order, client.release)
  | (.error error, client) =>
    match client.query "ROLLBACK" with
    | (.error rollbackError, client) => (.error rollbackError, client.release)
    | (.ok _, client) => (.error error, client.release)

/-- The `try` block of `delete`. -/
def deleteTry (id : JsVal) (client : Client) : Except JsError Bool × Client :=
  match client.query "BEGIN" with
  | (.error error, client) => (.error error, client)
  | (.ok _, client) =>
    match client.queryItems deleteItemsQuery [id] with
    | (.error error, client) => (.error error, client)
    | (.ok _, client) =>
      match client.queryOrders deleteOrderQuery [id] with
      | (.error error, client) => (.error error, client)
      | (.ok result, client) =>
        match client.query "COMMIT" with
        | (.error error, client) => (.error error, client)
        | (.ok _, client) => (.ok (decide (result.rowCount > 0)), client)

/-- `delete(id)` on the connection `client` that `pool.connect()` returned: the `try`
block, the `catch` block and the `finally` block. -/
def delete (id : JsVal) (client : Client) : Except JsError Bool × Client :=
  match deleteTry id client with
  | (.ok deleted, client) => (.ok deleted, client.release)
  | (.error error, client) =>
    match client.query "ROLLBACK" with
    | (.error rollbackError, client) => (.error rollbackError, client.release)
    | (.ok _, client) => (.error error, client.release)

/-- `result.rows.length > 0 ? this._mapToOrder(result.rows[0]) : null`. -/
def mapFirstRow (js : Builtins) (rows : List OrderRow) : Except JsError (Option Order) :=
  match rows with
  | [] => .ok none
  | row :: _ =>
    match _mapToOrder js row with
    | .error error => .error error
    | .ok order => .ok (some order)

/-- The text of the query of `findById`. -/
def findByIdQuery : String :=
  "\n" ++
  "      SELECT o.*, \n" ++
  "             json_agg(\n" ++
  "               json_build_object(\n" ++
  "                 'id', oi.id,\n" ++
  "                 'product_id', oi.product_id,\n" ++
  "                 'quantity', oi.quantity,\n" ++
  "                 'unit_price', oi.unit_price,\n" ++
  "                 'total_price', oi.total_price,\n" ++
  "                 'product', json_build_object(\n" ++
  "                   'id', p.id,\n" ++
  "                   'name', p.name,\n" ++
  "                   'slug', p.slug,\n" ++
  "                   'image_url', p.image_url\n" ++
  "                 )\n" ++
  "               )\n" ++
  "             ) as order_items\n" ++
  "      FROM orders o\n" ++
  "      LEFT JOIN order_items oi ON o.id = oi.order_id\n" ++
  "      LEFT JOIN products p ON oi.product_id = p.id\n" ++
  "      WHERE o.id = $1\n" ++
  "      GROUP BY o.id\n" ++
  "    "

/-- `findById(id)`. -/
def findById (js : Builtins) (id : JsVal) (pool : Pool) :
    Except JsError (Option Order) × Pool :=
  match pool.query findByIdQuery [id] with
  | (.error error, pool) => (.error error, pool)
  | (.ok result, pool) => (mapFirstRow js result.rows, pool)

/-- The initial text of `query` in `findAll`. -/
def findAllBase : String :=
  "\n" ++
  "      SELECT o.*, \n" ++
  "             json_agg(\n" ++
  "               json_build_object(\n" ++
  "                 'id', oi.id,\n" ++
  "                 'product_id', oi.product_id,\n" ++
  "                 'quantity', oi.quantity,\n" ++
  "                 'unit_price', oi.unit_price,\n" ++
  "                 'total_price', oi.total_price\n" ++
  "               )\n" ++
  "             ) as order_items\n" ++
  "      FROM orders o\n" ++
  "      LEFT JOIN order_items oi ON o.id = oi.order_id\n" ++
  "      WHERE 1=1\n" ++
  "    "

/-- The statement `findAll` builds: `query` and `values` as they are when
`pool.query(query, values)` is called. -/
def findAllQuery (filters : FindAllFilters) : Query :=
  let query : String := findAllBase
  let values : List JsVal := []
  let valueIndex : Nat := 1
  let (query, values, valueIndex) :=
    if filters.status.truthy then
      (query ++ " AND o.order_status = $" ++ toString valueIndex,
        values ++ [filters.status], valueIndex + 1)
    else (query, values, valueIndex)
  let (query, values, valueIndex) :=
    if filters.userId.truthy then
      (query ++ " AND o.user_id = $" ++ toString valueIndex,
        values ++ [filters.userId], valueIndex + 1)
    else (query, values, valueIndex)
  let (query, values, valueIndex) :=
    if filters.startDate.truthy then
      (query ++ " AND o.created_at >= $" ++ toString valueIndex,
        values ++ [filters.startDate], valueIndex + 1)
    else (query, values, valueIndex)
  let (query, values, valueIndex) :=
    if filters.endDate.truthy then
      (query ++ " AND o.created_at <= $" ++ toString valueIndex,
        values ++ [filters.endDate], valueIndex + 1)
    else (query, values, valueIndex)
  let query := query ++ " GROUP BY o.id ORDER BY o.created_at DESC"
  if numTruthy filters.limit then
    let limit : Int := filters.limit.getD 0
    let query := query ++ " LIMIT $" ++ toString valueIndex
    let values := values ++ [.num limit]
    let valueIndex := valueIndex + 1
    if numTruthy filters.page then
      let offset : Int := (filters.page.getD 0 - 1) * limit
      { text := query ++ " OFFSET $" ++ toString valueIndex,
        values := values ++ [.num offset] }
    else { text := query, values := values }
  else { text := query, values := values }

/-- The rows of `result.rows.map((row) => this._mapToOrder(row))`: the orders of the
rows in order, or the error of the first row for which `_mapToOrder` throws. -/
def mapRows (js : Builtins) : List OrderRow → Except JsError (List Order)
  | [] => .ok []
  | row :: rows =>
    match _mapToOrder js row with
    | .error error => .error error
    | .ok order =>
      match mapRows js rows with
      | .error error => .error error
      | .ok orders => .ok (order :: orders)

/-- `findAll({ page, limit, status, userId, startDate, endDate } = {})`. -/
def findAll (js : Builtins) (filters : FindAllFilters) (pool : Pool) :
    Except JsError (List Order) × Pool :=
  match pool.query (findAllQuery filters).text (findAllQuery filters).values with
  | (.error error, pool) => (.error error, pool)
  | (.ok result, pool) => (mapRows js result.rows, pool)

/-- The statement `update` builds, or the error it throws before any statement. -/
def updateQuery (id : JsVal) (updateData : UpdateData) : Except JsError Query :=
  let fields : List String := []
  let values : List JsVal := []
  let valueIndex : Nat := 1
  let (fields, values, valueIndex) :=
    if updateData.orderStatus != .undefined then
      (fields ++ ["order_status = $" ++ toString valueIndex],
        values ++ [updateData.orderStatus], valueIndex + 1)
    else (fields, values, valueIndex)
  let (fields, values, valueIndex) :=
    if updateData.paymentStatus != .undefined then
      (fields ++ ["payment_status = $" ++ toString valueIndex],
        values ++ [updateData.paymentStatus], valueIndex + 1)
    else (fields, values, valueIndex)
  let (fields, values, valueIndex) :=
    if updateData.notes != .undefined then
      (fields ++ ["notes = $" ++ toString valueIndex],
        values ++ [updateData.notes], valueIndex + 1)
    else (fields, values, valueIndex)
  let (fields, values, valueIndex) :=
    if updateData.trackingNumber != .undefined then
      (fields ++ ["tracking_number = $" ++ toString valueIndex],
        values ++ [updateData.trackingNumber], valueIndex + 1)
    else (fields, values, valueIndex)
  if fields.length = 0 then
    .error { name := "Error", message := "No fields to update" }
  else
    let fields := fields ++ ["updated_at = CURRENT_TIMESTAMP"]
    let query : String :=
      "\n      UPDATE orders \n      SET " ++ String.intercalate ", " fields
        ++ "\n      WHERE id = $" ++ toString valueIndex ++ "\n      RETURNING *\n    "
    let values := values ++ [id]
    .ok { text := query, values := values }

/-- `update(id, updateData)`. -/
def update (js : Builtins) (id : JsVal) (updateData : UpdateData) (pool : Pool) :
    Except JsError (Option Order) × Pool :=
  match updateQuery id updateData with
  | .error error => (.error error, pool)
  | .ok query =>
    match pool.query query.text query.values with
    | (.error error, pool) => (.error error, pool)
    | (.ok result, pool) => (mapFirstRow js result.rows, pool)

/-- The text of the query of `getOrderStatistics` for a period:
the template with `period.replace("d", " days")` put between the quotes. -/
def statisticsQuery (period : String) : String :=
  "\n" ++
  "      SELECT \n" ++
  "        COUNT(*) as total_orders,\n" ++
  "        SUM(total_amount) as total_revenue,\n" ++
  "        AVG(total_amount) as average_order_value,\n" ++
  "        COUNT(CASE WHEN order_status = 'completed' THEN 1 END) as completed_orders,\n" ++
  "        COUNT(CASE WHEN order_status = 'pending' THEN 1 END) as pending_orders,\n" ++
  "        COUNT(CASE WHEN order_status = 'cancelled' THEN 1 END) as cancelled_orders\n" ++
  "      FROM orders\n" ++
  "      WHERE created_at >= CURRENT_DATE - INTERVAL '" ++
  String.mk (replaceFirst 'd' " days".toList period.toList) ++
  "'\n" ++
  "    "

/-- `getOrderStatistics(period = "30d")`: `pool.query(query)` has no values, and the
result is `result.rows[0]`. -/
def getOrderStatistics (period : Option String) (pool : Pool) :
    Except JsError (Option StatisticsRow) × Pool :=
  let period : String := period.getD "30d"
  match pool.queryStatistics (statisticsQuery period) with
  | (.error error, pool) => (.error error, pool)
  | (.ok result, pool) => (.ok result.rows.head?, pool)

/-- The whitelisted keys of `updateData` that are defined, each with its column, in the
order `order_status`, `payment_status`, `notes`, `tracking_number`. -/
def definedFields (updateData : UpdateData) : List (String × JsVal) :=
  [("order_status", updateData.orderStatus), ("payment_status", updateData.paymentStatus),
    ("notes", updateData.notes), ("tracking_number", updateData.trackingNumber)].filter
    (fun field => field.2 != .undefined)

/-- The assignments `column = $k` for a list of columns, numbered from `k` on. -/
def numberedAssignments : Nat → List (String × JsVal) → List String
  | _, [] => []
  | k, (column, _) :: rest =>
    (column ++ " = $" ++ toString k) :: numberedAssignments (k + 1) rest

/-- The statement of `update` as the specification words it: one assignment per defined
whitelisted field, then `updated_at = CURRENT_TIMESTAMP`; the values of the defined
fields, then the id, which the `WHERE` clause reads through the last placeholder. -/
def updateQuerySpec (id : JsVal) (updateData : UpdateData) : Query :=
  { text := "\n      UPDATE orders \n      SET "
      ++ String.intercalate ", "
          (numberedAssignments 1 (definedFields updateData)
            ++ ["updated_at = CURRENT_TIMESTAMP"])
      ++ "\n      WHERE id = $" ++ toString ((definedFields updateData).length + 1)
      ++ "\n      RETURNING *\n    "
    values := (definedFields updateData).map (fun field => field.2) ++ [id] }

/-- The filters of `findAll` whose value is truthy, each with its condition up to the
placeholder number, in the order status, userId, startDate, endDate. -/
def truthyFilters (filters : FindAllFilters) : List (String × JsVal) :=
  [(" AND o.order_status = $", filters.status), (" AND o.user_id = $", filters.userId),
    (" AND o.created_at >= $", filters.startDate),
    (" AND o.created_at <= $", filters.endDate)].filter
    (fun condition => condition.2.truthy)

/-- The conditions of a list of filters, with placeholders numbered from `k` on. -/
def numberedConditions : Nat → List (String × JsVal) → String
  | _, [] => ""
  | k, (condition, _) :: rest =>
    condition ++ toString k ++ numberedConditions (k + 1) rest

/-- The pagination clauses after `ORDER BY`, with placeholders numbered from `k` on:
`LIMIT` when `limit` is truthy, and then `OFFSET` when `page` is truthy. -/
def paginationText (k : Nat) (page limit : Option Int) : String :=
  if numTruthy limit then
    if numTruthy page then " LIMIT $" ++ toString k ++ " OFFSET $" ++ toString (k + 1)
    else " LIMIT $" ++ toString k
  else ""

/-- The values bound to the pagination placeholders: the limit, and then the offset
`(page - 1) * limit`. -/
def paginationValues (page limit : Option Int) : List JsVal :=
  if numTruthy limit then
    if numTruthy page then [.num (limit.getD 0), .num ((page.getD 0 - 1) * limit.getD 0)]
    else [.num (limit.getD 0)]
  else []

/-- The statements `create` has sent when the insert of item number `k` threw: `BEGIN`,
the order insert, the inserts of the first `k` items, `ROLLBACK`. -/
def issuedUntilFault (js : Builtins) (orderData : OrderData) (k : Nat) : List Query :=
  [⟨"BEGIN", []⟩, ⟨orderQuery, orderValues js orderData⟩]
    ++ (orderData.items.take k).map
        (fun item => ⟨itemQuery, itemValues (sqlParam orderData.id) item⟩)
    ++ [⟨"ROLLBACK", []⟩]

end PostgresOrderRepository

/-! ## OrderUseCases.js -/

/-- The repository object that `OrderUseCases` is constructed with, as the use cases see
it: what each awaited call returns, or the error it throws. `findAll` is called without
an argument (`none`). -/
structure OrderRepository where
  create : OrderData → Except JsError Order
  findById : JsVal → Except JsError (Option Order)
  findAll : Option FindAllFilters → Except JsError (List Order)

namespace OrderUseCases

/-- `createOrder(orderData)`. -/
def createOrder (orderRepository : OrderRepository) (orderData : OrderData) :
    Except JsError Order :=
  match orderRepository.create orderData with
  | .ok result => .ok result
  | .error error =>
    .error { name := "Error", message := "Failed to create order: " ++ error.message }

/-- `getOrderById(id)`. -/
def getOrderById (orderRepository : OrderRepository) (id : JsVal) :
    Except JsError (Option Order) :=
  match orderRepository.findById id with
  | .ok result => .ok result
  | .error error =>
    .error { name := "Error", message := "Failed to get order: " ++ error.message }

/-- `getAllOrders()`. -/
def getAllOrders (orderRepository : OrderRepository) : Except JsError (List Order) :=
  match orderRepository.findAll none with
  | .ok result => .ok result
  | .error error =>
    .error { name := "Error", message := "Failed to get all orders: " ++ error.message }

end OrderUseCases

/-! ## OrderController.js

The handlers `(req, res, next) => ...`. The request is the part of `req` that the
handlers read; `res` and `next` are one `Exchange`, which records the status set by
`res.status`, the bodies sent by `res.json` and the errors handed to `next`. The order
service that the constructor creates is a parameter: what each awaited call returns, or
the error it throws.
-/

/-- `req.params`. -/
structure RequestParams where
  id : JsVal
  deriving DecidableEq, Repr

/-- `req.query`: the keys that `getOrders` reads, `undefined` when missing. -/
structure RequestQuery where
  page : JsVal
  limit : JsVal
  status : JsVal
  userId : JsVal
  deriving DecidableEq, Repr

/-- `req.body`: the object itself and the keys that the handlers read from it,
`undefined` when missing. -/
structure RequestBody where
  value : JsVal
  status : JsVal
  notes : JsVal
  reason : JsVal
  items : JsVal
  shippingAddress : JsVal
  promoCode : JsVal
  deriving DecidableEq, Repr

/-- The request `req`. -/
structure Request where
  params : RequestParams
  query : RequestQuery
  body : RequestBody
  deriving DecidableEq, Repr

/-- A response body: the keys `success`, `message`, `data` and `pagination`, `none` for
a key that the object does not have. -/
structure Envelope where
  success : Bool
  message : Option String
  data : Option JsVal
  pagination : Option JsVal
  deriving DecidableEq, Repr

/-- What a handler has done with `res` and `next`. -/
structure Exchange where
  statusCode : Option Nat
  sent : List Envelope
  forwarded : List JsError
  deriving DecidableEq, Repr

namespace Exchange

/-- `res.status(code)`. -/
def status (res : Exchange) (code : Nat) : Exchange :=
  { res with statusCode := some code }

/-- `res.json(body)`. -/
def json (res : Exchange) (body : Envelope) : Exchange :=
  { res with sent := res.sent ++ [body] }

/-- `next(error)`. -/
def next (res : Exchange) (error : JsError) : Exchange :=
  { res with forwarded := res.forwarded ++ [error] }

end Exchange

/-- The argument of `orderService.getOrders`. -/
structure GetOrdersArgs where
  page : JsVal
  limit : JsVal
  status : JsVal
  userId : JsVal
  deriving DecidableEq, Repr

/-- The object that `orderService.getOrders` resolves to: `{ orders, pagination }`. -/
structure OrdersPage where
  orders : JsVal
  pagination : JsVal
  deriving DecidableEq, Repr

/-- The argument of `orderService.calculateOrderTotals`. -/
structure TotalsArgs where
  items : JsVal
  shippingAddress : JsVal
  promoCode : JsVal
  deriving DecidableEq, Repr

/-- The order service as the controller sees it: what each awaited call returns, or the
error it throws. -/
structure OrderService where
  getOrders : GetOrdersArgs → Except JsError OrdersPage
  getOrderById : JsVal → Except JsError JsVal
  createOrder : JsVal → Except JsError JsVal
  updateOrderStatus : JsVal → JsVal → JsVal → Except JsError JsVal
  cancelOrder : JsVal → JsVal → Except JsError JsVal
  getOrderTracking : JsVal → Except JsError JsVal
  processPayment : JsVal → JsVal → Except JsError JsVal
  calculateOrderTotals : TotalsArgs → Except JsError JsVal

/-- The body of every not-found response. -/
def orderNotFound : Envelope :=
  { success := false, message := some "Order not found", data := none, pagination := none }

namespace OrderController

/-- `getOrders`: the defaults `page = 1` and `limit = 10` of the destructuring apply to
`undefined`; `parseInt` is the built-in. -/
def getOrders (parseInt : JsVal → JsVal) (orderService : OrderService) (req : Request)
    (res : Exchange) : Exchange :=
  let page := if req.query.page = .undefined then .num 1 else req.query.page
  let limit := if req.query.limit = .undefined then .num 10 else req.query.limit
  match orderService.getOrders
      { page := parseInt page, limit := parseInt limit, status := req.query.status,
        userId := req.query.userId } with
  | .ok result =>
    res.json
      { success := true, message := none, data := some result.orders,
        pagination := some result.pagination }
  | .error error => res.next error

/-- `getOrderById`. -/
def getOrderById (orderService : OrderService) (req : Request) (res : Exchange) :
    Exchange :=
  match orderService.getOrderById req.params.id with
  | .ok order =>
    if !order.truthy then
      (res.status 404).json orderNotFound
    else
      res.json { success := true, message := none, data := some order, pagination := none }
  | .error error => res.next error

/-- `createOrder`. -/
def createOrder (orderService : OrderService) (req : Request) (res : Exchange) :
    Exchange :=
  match orderService.createOrder req.body.value with
  | .ok order =>
    (res.status 201).json
      { success := true, message := some "Order created successfully", data := some order,
        pagination := none }
  | .error error => res.next error

/-- `updateOrderStatus`. -/
def updateOrderStatus (orderService : OrderService) (req : Request) (res : Exchange) :
    Exchange :=
  match orderService.updateOrderStatus req.params.id req.body.status req.body.notes with
  | .ok order =>
    if !order.truthy then
      (res.status 404).json orderNotFound
    else
      res.json
        { success := true, message := some "Order status updated successfully",
          data := some order, pagination := none }
  | .error error => res.next error

/-- `cancelOrder`. -/
def cancelOrder (orderService : OrderService) (req : Request) (res : Exchange) :
    Exchange :=
  match orderService.cancelOrder req.params.id req.body.reason with
  | .ok order =>
    if !order.truthy then
      (res.status 404).json orderNotFound
    else
      res.json
        { success := true, message := some "Order cancelled successfully",
          data := some order, pagination := none }
  | .error error => res.next error

/-- `getOrderTracking`. -/
def getOrderTracking (orderService : OrderService) (req : Request) (res : Exchange) :
    Exchange :=
  match orderService.getOrderTracking req.params.id with
  | .ok tracking =>
    if !tracking.truthy then
      (res.status 404).json orderNotFound
    else
      res.json
        { success := true, message := none, data := some tracking, pagination := none }
  | .error error => res.next error

/-- `processPayment`. -/
def processPayment (orderService : OrderService) (req : Request) (res : Exchange) :
    Exchange :=
  match orderService.processPayment req.params.id req.body.value with
  | .ok result =>
    res.json
      { success := true, message := some "Payment processed successfully",
        data := some result, pagination := none }
  | .error error => res.next error

/-- `calculateOrderTotals`. -/
def calculateOrderTotals (orderService : OrderService) (req : Request) (res : Exchange) :
    Exchange :=
  match orderService.calculateOrderTotals
      { items := req.body.items, shippingAddress := req.body.shippingAddress,
        promoCode := req.body.promoCode } with
  | .ok totals =>
    res.json { success := true, message := none, data := some totals, pagination := none }
  | .error error => res.next error

end OrderController

/-- The handler has handed exactly the error `error` to `next` and has done nothing with
`res`. -/
def Exchange.forwardedOnly (res result : Exchange) (error : JsError) : Prop :=
  result = { res with forwarded := res.forwarded ++ [error] }

/-- The handler has sent exactly one response body and has not called `next`. -/
def Exchange.respondedOnce (res result : Exchange) : Prop :=
  result.sent.length = res.sent.length + 1 ∧ result.forwarded = res.forwarded

/-! ### Sample inputs -/

/-- An exchange on which nothing has happened yet. -/
def Exchange.fresh : Exchange :=
  { statusCode := none, sent := [], forwarded := [] }

/-- A request for the order with the given id, without query and with an empty body. -/
def requestFor (id : String) : Request :=
  { params := { id := .str id }
    query := { page := .undefined, limit := .undefined, status := .undefined,
               userId := .undefined }
    body := { value := .obj "\x7b\x7d", status := .undefined, notes := .undefined,
              reason := .undefined, items := .undefined, shippingAddress := .undefined,
              promoCode := .undefined } }

/-- A service whose every call resolves to the given value (and to a page of it). -/
def OrderService.returning (value : JsVal) : OrderService :=
  { getOrders := fun _ => .ok { orders := value, pagination := value }
    getOrderById := fun _ => .ok value
    createOrder := fun _ => .ok value
    updateOrderStatus := fun _ _ _ => .ok value
    cancelOrder := fun _ _ => .ok value
    getOrderTracking := fun _ => .ok value
    processPayment := fun _ _ => .ok value
    calculateOrderTotals := fun _ => .ok value }

/-- A service whose every call throws the given error. -/
def OrderService.failing (error : JsError) : OrderService :=
  { getOrders := fun _ => .error error
    getOrderById := fun _ => .error error
    createOrder := fun _ => .error error
    updateOrderStatus := fun _ _ _ => .error error
    cancelOrder := fun _ _ => .error error
    getOrderTracking := fun _ => .error error
    processPayment := fun _ _ => .error error
    calculateOrderTotals := fun _ => .error error }


/-- A connection fresh from the pool: empty tables, no open transaction, nothing sent,
and the outcomes `faults` for the statements to come. -/
def Client.fresh (faults : List (Option JsError)) : Client :=
  { committed := { orders := [], order_items := [] }, txn := none, log := [],
    faults := faults, released := 0 }

/-- Built-ins for the sample runs: numbers parse to themselves, an object is serialised
to its JSON text, and a JSON text parses to the object it denotes. -/
def sampleBuiltins : Builtins :=
  { parseFloat := fun v => v
    jsonStringify := fun v =>
      match v with
      | .obj json => .str json
      | v => v
    jsonParse := fun s => .ok (.obj s) }

/-- An order item of the sample payload. -/
def sampleItem (id : String) : OrderItemData :=
  { id := .str id, productId := .str "p1", quantity := .num 2, unitPrice := .num 10,
    totalPrice := .num 20 }

/-- An order payload with the given items. -/
def sampleOrder (items : List OrderItemData) : OrderData :=
  { id := .str "o1", customerName := .str "Ann", customerEmail := .str "ann@example.com",
    customerPhone := .str "555", billingAddress := .obj "\x7b\x7d",
    shippingAddress := .obj "\x7b\x7d", paymentMethod := .str "card",
    paymentStatus := .str "pending", orderStatus := .str "pending", notes := .undefined,
    subtotal := .num 20, taxAmount := .num 0, shippingCost := .num 0,
    discountAmount := .num 0, totalAmount := .num 20, items := items }

/-- A pool that has sent nothing and answers every statement with the given order
rows (and the statistics query with no row). -/
def Pool.answering (rows : List OrderRow) : Pool :=
  { log := []
    answer := fun _ => .ok { rows := rows, rowCount := rows.length }
    answerStatistics := fun _ => .ok { rows := [], rowCount := 0 } }

/-- A repository whose every call throws the given error. -/
def OrderRepository.failing (error : JsError) : OrderRepository :=
  { create := fun _ => .error error
    findById := fun _ => .error error
    findAll := fun _ => .error error }

/-- A repository that finds no order and stores none. -/
def OrderRepository.vacant : OrderRepository :=
  { create := fun _ => .error { name := "Error", message := "read only" }
    findById := fun _ => .ok none
    findAll := fun _ => .ok [] }

/-- The filters for the pending orders of one page. -/
def pendingOrders (page limit : Option Int) : FindAllFilters :=
  { page := page, limit := limit, status := .str "pending", userId := .undefined,
    startDate := .undefined, endDate := .undefined }

/-- An order row with the given id and no other column set. -/
def orderRowWithId (id : String) : OrderRow :=
  { OrderRow.blank with id := .str id }

/-- An item row with the given id that belongs to the order with id `orderId`. -/
def itemRowOf (id orderId : String) : OrderItemRow :=
  { id := .str id, order_id := .str orderId, product_id := .str "p1", quantity := .num 1,
    unit_price := .num 10, total_price := .num 10, product := .undefined }

/-- A connection on tables with the orders "o1" (two items) and "o2" (one item), on
which no statement fails. -/
def Client.stocked : Client :=
  { committed :=
      { orders := [orderRowWithId "o1", orderRowWithId "o2"]
        order_items := [itemRowOf "i1" "o1", itemRowOf "i2" "o2", itemRowOf "i3" "o1"] }
    txn := none, log := [], faults := [], released := 0 }

/-- The row of order "o1" as the query of `findById` returns it, with the given
aggregate `order_items`. -/
def joinedRow (order_items : Option (List OrderItemRow)) : OrderRow :=
  { orderRowWithId "o1" with order_items := order_items }

/-- The element of the aggregate for an order without items: every field is `null`. -/
def placeholderItem : OrderItemRow :=
  { id := .null, order_id := .undefined, product_id := .null, quantity := .null,
    unit_price := .null, total_price := .null, product := .obj "null product" }

/-! ### Helper lemmas on `modifyFirst` and the cart operations -/

theorem modifyFirst_length {α : Type} (p : α → Bool) (f : α → α) (xs : List α) :
    (modifyFirst p f xs).length = xs.length := by
  induction xs with
  | nil => rfl
  | cons x xs ih =>
    by_cases h : p x <;> simp [modifyFirst, h, ih]

theorem modifyFirst_split {α : Type} (p : α → Bool) (f : α → α)
    (pre post : List α) (x : α) (hpre : ∀ y ∈ pre, p y = false) (hx : p x = true) :
    modifyFirst p f (pre ++ x :: post) = pre ++ f x :: post := by
  induction pre with
  | nil => simp [modifyFirst, hx]
  | cons y ys ih =>
    have hy : p y = false := hpre y (List.mem_cons_self _ _)
    have hys : ∀ z ∈ ys, p z = false := fun z hz => hpre z (List.mem_cons_of_mem _ hz)
    simp [modifyFirst, hy, ih hys]

theorem modifyFirst_none {α : Type} (p : α → Bool) (f : α → α) (xs : List α)
    (h : ∀ y ∈ xs, p y = false) : modifyFirst p f xs = xs := by
  induction xs with
  | nil => rfl
  | cons y ys ih =>
    have hy : p y = false := h y (List.mem_cons_self _ _)
    have hys : ∀ z ∈ ys, p z = false := fun z hz => h z (List.mem_cons_of_mem _ hz)
    simp [modifyFirst, hy, ih hys]

theorem modifyFirst_map {α β : Type} (p : α → Bool) (f : α → α) (g : α → β)
    (hg : ∀ x, g (f x) = g x) (xs : List α) :
    (modifyFirst p f xs).map g = xs.map g := by
  induction xs with
  | nil => rfl
  | cons x xs ih =>
    by_cases h : p x <;> simp [modifyFirst, h, ih, hg]

/-- A list with an element satisfying `p` splits at the first such element. -/
theorem exists_first_split {α : Type} (p : α → Bool) (xs : List α)
    (h : ∃ x ∈ xs, p x = true) :
    ∃ pre x post, xs = pre ++ x :: post ∧ (∀ y ∈ pre, p y = false) ∧ p x = true := by
  induction xs with
  | nil => simp at h
  | cons a as ih =>
    by_cases ha : p a = true
    · exact ⟨[], a, as, rfl, by simp, ha⟩
    · have h2 : ∃ x ∈ as, p x = true := by
        obtain ⟨x, hx, hpx⟩ := h
        rcases List.mem_cons.mp hx with rfl | hx
        · exact absurd hpx ha
        · exact ⟨x, hx, hpx⟩
      obtain ⟨pre, x, post, hsplit, hpre, hx⟩ := ih h2
      refine ⟨a :: pre, x, post, by simp [hsplit], ?_, hx⟩
      intro y hy
      rcases List.mem_cons.mp hy with rfl | hy
      · simpa using ha
      · exact hpre y hy

theorem find?_eq_none_of_forall {α : Type} (p : α → Bool) (xs : List α)
    (h : ∀ y ∈ xs, p y = false) : xs.find? p = none := by
  simpa using h

theorem find?_isSome_of_exists {α : Type} (p : α → Bool) (xs : List α)
    (h : ∃ x ∈ xs, p x = true) : ∃ y, xs.find? p = some y := by
  cases hf : xs.find? p with
  | some y => exact ⟨y, rfl⟩
  | none =>
    obtain ⟨x, hx, hpx⟩ := h
    have := List.find?_eq_none.mp hf x hx
    simp [hpx] at this

theorem foldl_add_eq_sum {α : Type} (f : α → Int) (xs : List α) (a : Int) :
    xs.foldl (fun total x => total + f x) a = a + (xs.map f).sum := by
  induction xs generalizing a with
  | nil => simp
  | cons x xs ih => simp [ih, add_assoc]

theorem Cart.addItem_of_absent (c : Cart) (p : Product) (q : Option Int)
    (hp : ∀ item ∈ c.items, item.id ≠ p.id) :
    (c.addItem p q).items = c.items ++ [CartItem.new p (some (q.getD 1))] := by
  have hnone : c.items.find? (fun item => item.id == p.id) = none :=
    find?_eq_none_of_forall _ _ (fun y hy => by simpa using hp y hy)
  simp [Cart.addItem, hnone]

theorem Cart.addItem_of_split (c : Cart) (p : Product) (q : Option Int)
    (pre post : List CartItem) (item : CartItem) (hsplit : c.items = pre ++ item :: post)
    (hpre : ∀ y ∈ pre, y.id ≠ p.id) (hitem : item.id = p.id) :
    (c.addItem p q).items
      = pre ++ { item with quantity := item.quantity + q.getD 1 } :: post := by
  have hex : ∃ x ∈ c.items, (fun (it : CartItem) => it.id == p.id) x = true :=
    ⟨item, by simp [hsplit], by simp [hitem]⟩
  obtain ⟨y, hy⟩ := find?_isSome_of_exists _ _ hex
  have hmod := modifyFirst_split (fun (it : CartItem) => it.id == p.id)
    (fun existingItem => existingItem.increaseQuantity (some (q.getD 1))) pre post item
    (fun z hz => by simpa using hpre z hz) (by simp [hitem])
  simp only [Cart.addItem, hy]
  rw [hsplit, hmod]
  simp [CartItem.increaseQuantity]

theorem Cart.updateQuantity_of_absent (c : Cart) (productId : String) (q : Int)
    (hp : ∀ item ∈ c.items, item.id ≠ productId) : c.updateQuantity productId q = c := by
  have hnone : c.items.find? (fun item => item.id == productId) = none :=
    find?_eq_none_of_forall _ _ (fun y hy => by simpa using hp y hy)
  simp [Cart.updateQuantity, hnone]

theorem filter_ne_eq_self (xs : List CartItem) (productId : String)
    (hp : ∀ item ∈ xs, item.id ≠ productId) :
    xs.filter (fun item => item.id != productId) = xs := by
  apply List.filter_eq_self.mpr
  intro a ha
  simpa using hp a ha

theorem Cart.ids_addItem_nodup (c : Cart) (p : Product) (q : Option Int)
    (h : c.ids.Nodup) : (c.addItem p q).ids.Nodup := by
  by_cases hex : ∃ x ∈ c.items, x.id = p.id
  · have hex2 : ∃ x ∈ c.items, (fun (it : CartItem) => it.id == p.id) x = true := by
      obtain ⟨x, hx, hxp⟩ := hex
      exact ⟨x, hx, by simp [hxp]⟩
    obtain ⟨y, hy⟩ := find?_isSome_of_exists _ _ hex2
    simp only [Cart.ids, Cart.addItem, hy]
    rw [modifyFirst_map]
    · exact h
    · intro x; rfl
  · have hp : ∀ item ∈ c.items, item.id ≠ p.id := fun item hi hid => hex ⟨item, hi, hid⟩
    simp only [Cart.ids, Cart.addItem_of_absent c p q hp, List.map_append, List.map_cons,
      List.map_nil]
    refine List.Nodup.append h (by simp) ?_
    simp only [List.disjoint_singleton, CartItem.new, List.mem_map, not_exists, not_and]
    intro x hx hxid
    exact hp x hx hxid

theorem Cart.ids_removeItem_nodup (c : Cart) (productId : String)
    (h : c.ids.Nodup) : (c.removeItem productId).ids.Nodup := by
  simp only [Cart.ids, Cart.removeItem]
  exact List.Nodup.sublist ((List.filter_sublist _).map _) h

theorem Cart.ids_updateQuantity_nodup (c : Cart) (productId : String) (q : Int)
    (h : c.ids.Nodup) : (c.updateQuantity productId q).ids.Nodup := by
  unfold Cart.updateQuantity
  split
  · split
    · exact Cart.ids_removeItem_nodup c productId h
    · simp only [Cart.ids]
      rw [modifyFirst_map]
      · exact h
      · intro x; rfl
  · exact h

theorem Cart.ids_step_nodup (c : Cart) (op : CartOp) (h : c.ids.Nodup) :
    (c.step op).ids.Nodup := by
  cases op with
  | addItem p q => exact Cart.ids_addItem_nodup c p q h
  | removeItem productId => exact Cart.ids_removeItem_nodup c productId h
  | updateQuantity productId q => exact Cart.ids_updateQuantity_nodup c productId q h
  | clear => simp [Cart.step, Cart.clear, Cart.ids]

theorem Cart.ids_run_nodup (ops : List CartOp) (c : Cart) (h : c.ids.Nodup) :
    (c.run ops).ids.Nodup := by
  induction ops generalizing c with
  | nil => exact h
  | cons op ops ih => exact ih (c.step op) (Cart.ids_step_nodup c op h)

/-! ## Properties of the cart -/

/-- C1: for every cart, `getTotalPrice()` is the sum over its items of
`product.price * quantity`; it is `0` for the empty cart; and the `getTotalPrice()` of
one item is `product.price * quantity`. -/
theorem Cart.getTotalPrice_eq_sum (c : Cart) :
    c.getTotalPrice = (c.items.map (fun item => item.product.price * item.quantity)).sum
    ∧ Cart.empty.getTotalPrice = 0
    ∧ ∀ item : CartItem, item.getTotalPrice = item.product.price * item.quantity := by
  refine ⟨?_, rfl, fun _ => rfl⟩
  have h := foldl_add_eq_sum (fun (item : CartItem) => item.getTotalPrice) c.items 0
  simpa [Cart.getTotalPrice, CartItem.getTotalPrice] using h

/-- C2: when no item of the cart has the id of `p`, `addItem(p, q1)` followed by
`addItem(p, q2)` leaves the old items followed by one item for `p` with quantity
`q1 + q2` (an omitted quantity counts as 1): exactly one item has id `p.id` and the
item count has grown by one. And on any cart that holds an item with the id of `p`,
`addItem(p, q)` adds `q` to the quantity of the first such item and leaves the item count
and every other item as they were. -/
theorem Cart.addItem_same_product_merges :
    (∀ (c : Cart) (p : Product) (q1 q2 : Option Int),
      (∀ item ∈ c.items, item.id ≠ p.id) →
      ((c.addItem p q1).addItem p q2).items
          = c.items ++ [{ id := p.id, product := p, quantity := q1.getD 1 + q2.getD 1 }]
        ∧ ((c.addItem p q1).addItem p q2).items.filter (fun item => item.id == p.id)
          = [{ id := p.id, product := p, quantity := q1.getD 1 + q2.getD 1 }]
        ∧ ((c.addItem p q1).addItem p q2).items.length = c.items.length + 1)
    ∧ (∀ (c : Cart) (p : Product) (q : Option Int),
      (∃ item ∈ c.items, item.id = p.id) →
      ∃ (pre post : List CartItem) (item : CartItem),
        c.items = pre ++ item :: post ∧ (∀ y ∈ pre, y.id ≠ p.id) ∧ item.id = p.id
        ∧ (c.addItem p q).items
            = pre ++ { item with quantity := item.quantity + q.getD 1 } :: post
        ∧ (c.addItem p q).items.length = c.items.length) := by
  constructor
  · intro c p q1 q2 hp
    have h1 := Cart.addItem_of_absent c p q1 hp
    have h2 := Cart.addItem_of_split (c.addItem p q1) p q2 c.items []
      (CartItem.new p (some (q1.getD 1))) h1 hp rfl
    have hfilter : c.items.filter (fun item => item.id == p.id) = [] := by
      apply List.filter_eq_nil_iff.mpr
      intro a ha
      simpa using hp a ha
    simp only [CartItem.new, Option.getD_some] at h2
    refine ⟨h2, ?_, ?_⟩
    · rw [h2, List.filter_append, hfilter]
      simp
    · rw [h2]
      simp
  · intro c p q hex
    have hex2 : ∃ x ∈ c.items, (fun (it : CartItem) => it.id == p.id) x = true := by
      obtain ⟨x, hx, hxp⟩ := hex
      exact ⟨x, hx, by simp [hxp]⟩
    obtain ⟨pre, item, post, hsplit, hpre, hitem⟩ := exists_first_split _ _ hex2
    have hpre2 : ∀ y ∈ pre, y.id ≠ p.id := fun y hy => by simpa using hpre y hy
    have hitem2 : item.id = p.id := by simpa using hitem
    have h := Cart.addItem_of_split c p q pre post item hsplit hpre2 hitem2
    refine ⟨pre, post, item, hsplit, hpre2, hitem2, h, ?_⟩
    rw [h, hsplit]
    simp

/-- Witness for C2 on the empty cart and on a cart that holds the product. -/
theorem Cart.addItem_same_product_merges_witness :
    ((Cart.empty.addItem ⟨"p1", 10⟩ (some 2)).addItem ⟨"p1", 10⟩ (some 3)).items
        = [{ id := "p1", product := ⟨"p1", 10⟩, quantity := 5 }]
    ∧ ∃ (pre post : List CartItem) (item : CartItem),
        (Cart.mk [⟨"p0", ⟨"p0", 7⟩, 1⟩, ⟨"p1", ⟨"p1", 10⟩, 2⟩]).items = pre ++ item :: post
        ∧ (∀ y ∈ pre, y.id ≠ "p1") ∧ item.id = "p1"
        ∧ ((Cart.mk [⟨"p0", ⟨"p0", 7⟩, 1⟩, ⟨"p1", ⟨"p1", 10⟩, 2⟩]).addItem
              ⟨"p1", 10⟩ (some 3)).items
            = pre ++ { item with quantity := item.quantity + 3 } :: post
        ∧ ((Cart.mk [⟨"p0", ⟨"p0", 7⟩, 1⟩, ⟨"p1", ⟨"p1", 10⟩, 2⟩]).addItem
              ⟨"p1", 10⟩ (some 3)).items.length = 2 :=
  ⟨(Cart.addItem_same_product_merges.1 Cart.empty ⟨"p1", 10⟩ (some 2) (some 3)
      (by simp [Cart.empty])).1,
   Cart.addItem_same_product_merges.2
      (Cart.mk [⟨"p0", ⟨"p0", 7⟩, 1⟩, ⟨"p1", ⟨"p1", 10⟩, 2⟩]) ⟨"p1", 10⟩ (some 3)
      ⟨⟨"p1", ⟨"p1", 10⟩, 2⟩, by simp, rfl⟩⟩

/-- C3: the ids of the items of every cart reached from the empty cart by a finite
sequence of `addItem`, `removeItem`, `updateQuantity` and `clear` calls are pairwise
distinct, and each of the four operations keeps the ids pairwise distinct. -/
theorem Cart.no_duplicate_products :
    (∀ ops : List CartOp, (Cart.empty.run ops).ids.Nodup)
    ∧ (∀ (c : Cart) (p : Product) (q : Option Int), c.ids.Nodup → (c.addItem p q).ids.Nodup)
    ∧ (∀ (c : Cart) (productId : String), c.ids.Nodup → (c.removeItem productId).ids.Nodup)
    ∧ (∀ (c : Cart) (productId : String) (q : Int),
        c.ids.Nodup → (c.updateQuantity productId q).ids.Nodup)
    ∧ (∀ c : Cart, c.ids.Nodup → c.clear.ids.Nodup) :=
  ⟨fun ops => Cart.ids_run_nodup ops Cart.empty (by simp [Cart.empty, Cart.ids]),
   Cart.ids_addItem_nodup, Cart.ids_removeItem_nodup, Cart.ids_updateQuantity_nodup,
   fun _ _ => by simp [Cart.clear, Cart.ids]⟩

/-- Witness for C3: a reachable cart, and one preserved step on a cart with distinct ids. -/
theorem Cart.no_duplicate_products_witness :
    (Cart.empty.run [.addItem ⟨"p1", 10⟩ (some 2), .addItem ⟨"p1", 10⟩ none,
        .updateQuantity "p1" 4, .addItem ⟨"p2", 5⟩ none]).ids.Nodup
    ∧ (Cart.mk [⟨"p1", ⟨"p1", 10⟩, 2⟩]).ids.Nodup
    ∧ ((Cart.mk [⟨"p1", ⟨"p1", 10⟩, 2⟩]).addItem ⟨"p1", 10⟩ (some 1)).ids.Nodup :=
  ⟨Cart.no_duplicate_products.1 _, by decide,
   Cart.no_duplicate_products.2.1 (Cart.mk [⟨"p1", ⟨"p1", 10⟩, 2⟩]) ⟨"p1", 10⟩ (some 1)
     (by decide)⟩

/-- C4: for every cart, product id and quantity `q ≤ 0`, after
`updateQuantity(productId, q)` no item of the cart has that id, and the items are exactly
the old items with another id, in their old order. -/
theorem Cart.updateQuantity_nonpos_removes (c : Cart) (productId : String) (q : Int)
    (hq : q ≤ 0) :
    (∀ item ∈ (c.updateQuantity productId q).items, item.id ≠ productId)
    ∧ (c.updateQuantity productId q).items
        = c.items.filter (fun item => decide (item.id ≠ productId)) := by
  have hitems : (c.updateQuantity productId q).items
      = c.items.filter (fun item => decide (item.id ≠ productId)) := by
    by_cases hex : ∃ x ∈ c.items, x.id = productId
    · have hex2 : ∃ x ∈ c.items, (fun (it : CartItem) => it.id == productId) x = true := by
        obtain ⟨x, hx, hxp⟩ := hex
        exact ⟨x, hx, by simp [hxp]⟩
      obtain ⟨y, hy⟩ := find?_isSome_of_exists _ _ hex2
      simp only [Cart.updateQuantity, hy, hq, Cart.removeItem, if_true]
      congr 1
      funext item
      by_cases h : item.id = productId <;> simp [h]
    · have hp : ∀ item ∈ c.items, item.id ≠ productId := fun item hi hid => hex ⟨item, hi, hid⟩
      rw [Cart.updateQuantity_of_absent c productId q hp]
      symm
      apply List.filter_eq_self.mpr
      intro a ha
      simpa using hp a ha
  refine ⟨?_, hitems⟩
  intro item hitem
  rw [hitems] at hitem
  simpa using (List.mem_filter.mp hitem).2

/-- Witness for C4 with the quantities `0` and `-5`. -/
theorem Cart.updateQuantity_nonpos_removes_witness :
    ((Cart.mk [⟨"p0", ⟨"p0", 7⟩, 1⟩, ⟨"p1", ⟨"p1", 10⟩, 2⟩, ⟨"p2", ⟨"p2", 3⟩, 4⟩]).updateQuantity
        "p1" 0).items = [⟨"p0", ⟨"p0", 7⟩, 1⟩, ⟨"p2", ⟨"p2", 3⟩, 4⟩]
    ∧ ((Cart.mk [⟨"p0", ⟨"p0", 7⟩, 1⟩, ⟨"p1", ⟨"p1", 10⟩, 2⟩, ⟨"p2", ⟨"p2", 3⟩, 4⟩]).updateQuantity
        "p1" (-5)).items = [⟨"p0", ⟨"p0", 7⟩, 1⟩, ⟨"p2", ⟨"p2", 3⟩, 4⟩] :=
  ⟨(Cart.updateQuantity_nonpos_removes _ "p1" 0 (by decide)).2.trans (by decide),
   (Cart.updateQuantity_nonpos_removes _ "p1" (-5) (by decide)).2.trans (by decide)⟩

/-- C5: on the code, `addItem` stores a negative quantity as it is given. The cart
`new Cart()` after `addItem(p, -5)` holds one item of quantity `-5`, and after
`addItem(p, 1)` and `addItem(p, -3)` it holds one item of quantity `-2`; so a cart built
from the empty cart can hold an item with a negative quantity. -/
theorem Cart.addItem_stores_negative_quantity :
    (Cart.empty.run [.addItem ⟨"p1", 10⟩ (some (-5))]).items
        = [{ id := "p1", product := ⟨"p1", 10⟩, quantity := -5 }]
    ∧ (Cart.empty.run [.addItem ⟨"p1", 10⟩ (some 1), .addItem ⟨"p1", 10⟩ (some (-3))]).items
        = [{ id := "p1", product := ⟨"p1", 10⟩, quantity := -2 }]
    ∧ ∃ ops : List CartOp, ∃ item ∈ (Cart.empty.run ops).items, item.quantity < 0 := by
  refine ⟨by decide, by decide, [.addItem ⟨"p1", 10⟩ (some (-5))],
    { id := "p1", product := ⟨"p1", 10⟩, quantity := -5 }, by decide, by decide⟩

/-- C6: for every cart and product `p` whose id no item of the cart has, `addItem(p, q)`
leaves the old items as they were and in their order, followed by one new last item
with id `p.id`, product `p` and quantity `q`; the quantity is `1` when `q` is omitted. -/
theorem Cart.addItem_absent_appends (c : Cart) (p : Product)
    (hp : ∀ item ∈ c.items, item.id ≠ p.id) :
    (∀ q : Int, (c.addItem p (some q)).items
        = c.items ++ [{ id := p.id, product := p, quantity := q }])
    ∧ (c.addItem p none).items = c.items ++ [{ id := p.id, product := p, quantity := 1 }] := by
  constructor
  · intro q
    simpa [CartItem.new] using Cart.addItem_of_absent c p (some q) hp
  · simpa [CartItem.new] using Cart.addItem_of_absent c p none hp

/-- Witness for C6 on a cart with one other product. -/
theorem Cart.addItem_absent_appends_witness :
    (∀ item ∈ (Cart.mk [⟨"p0", ⟨"p0", 7⟩, 1⟩]).items, item.id ≠ "p1")
    ∧ ((Cart.mk [⟨"p0", ⟨"p0", 7⟩, 1⟩]).addItem ⟨"p1", 10⟩ (some 3)).items
        = [⟨"p0", ⟨"p0", 7⟩, 1⟩, ⟨"p1", ⟨"p1", 10⟩, 3⟩]
    ∧ ((Cart.mk [⟨"p0", ⟨"p0", 7⟩, 1⟩]).addItem ⟨"p1", 10⟩ none).items
        = [⟨"p0", ⟨"p0", 7⟩, 1⟩, ⟨"p1", ⟨"p1", 10⟩, 1⟩] :=
  ⟨by decide,
   (Cart.addItem_absent_appends (Cart.mk [⟨"p0", ⟨"p0", 7⟩, 1⟩]) ⟨"p1", 10⟩ (by decide)).1 3,
   (Cart.addItem_absent_appends (Cart.mk [⟨"p0", ⟨"p0", 7⟩, 1⟩]) ⟨"p1", 10⟩ (by decide)).2⟩

/-- C7: for every cart and product id, the items after `removeItem(productId)` are
exactly the old items whose id differs from `productId`, in their old order; the cart is
unchanged when no item has that id; and a second `removeItem(productId)` changes
nothing. -/
theorem Cart.removeItem_filters (c : Cart) (productId : String) :
    (c.removeItem productId).items = c.items.filter (fun item => decide (item.id ≠ productId))
    ∧ (∀ item : CartItem,
        item ∈ (c.removeItem productId).items ↔ item ∈ c.items ∧ item.id ≠ productId)
    ∧ (c.removeItem productId).items.Sublist c.items
    ∧ ((∀ item ∈ c.items, item.id ≠ productId) → c.removeItem productId = c)
    ∧ (c.removeItem productId).removeItem productId = c.removeItem productId := by
  have hfun : (fun (item : CartItem) => item.id != productId)
      = (fun item => decide (item.id ≠ productId)) := by
    funext item
    by_cases h : item.id = productId <;> simp [h]
  refine ⟨by simp [Cart.removeItem, hfun], ?_, ?_, ?_, ?_⟩
  · intro item
    simp [Cart.removeItem, List.mem_filter]
  · exact List.filter_sublist _
  · intro hp
    cases c with
    | mk items =>
      simp only [Cart.removeItem, Cart.mk.injEq]
      exact filter_ne_eq_self items productId hp
  · simp [Cart.removeItem, List.filter_filter]

/-- Witness for C7: removing an id the cart does not hold leaves the cart unchanged. -/
theorem Cart.removeItem_filters_witness :
    (∀ item ∈ (Cart.mk [⟨"p0", ⟨"p0", 7⟩, 1⟩]).items, item.id ≠ "p1")
    ∧ (Cart.mk [⟨"p0", ⟨"p0", 7⟩, 1⟩]).removeItem "p1" = Cart.mk [⟨"p0", ⟨"p0", 7⟩, 1⟩] :=
  ⟨by decide,
   (Cart.removeItem_filters (Cart.mk [⟨"p0", ⟨"p0", 7⟩, 1⟩]) "p1").2.2.2.1 (by decide)⟩

/-- C8: for every cart, product id and quantity `q > 0`: when the cart holds an item with
that id, `updateQuantity(productId, q)` sets the quantity of the first such item to
exactly `q` and leaves the item count, the item order and every other item as they were;
and when the cart holds no item with that id, `updateQuantity(productId, q)` leaves the
cart unchanged for every `q`. -/
theorem Cart.updateQuantity_pos_sets :
    (∀ (c : Cart) (productId : String) (q : Int), 0 < q →
      (∃ item ∈ c.items, item.id = productId) →
      ∃ (pre post : List CartItem) (item : CartItem),
        c.items = pre ++ item :: post ∧ (∀ y ∈ pre, y.id ≠ productId) ∧ item.id = productId
        ∧ (c.updateQuantity productId q).items = pre ++ { item with quantity := q } :: post
        ∧ (c.updateQuantity productId q).items.length = c.items.length)
    ∧ (∀ (c : Cart) (productId : String) (q : Int),
      (∀ item ∈ c.items, item.id ≠ productId) → c.updateQuantity productId q = c) := by
  refine ⟨?_, Cart.updateQuantity_of_absent⟩
  intro c productId q hq hex
  have hex2 : ∃ x ∈ c.items, (fun (it : CartItem) => it.id == productId) x = true := by
    obtain ⟨x, hx, hxp⟩ := hex
    exact ⟨x, hx, by simp [hxp]⟩
  obtain ⟨pre, item, post, hsplit, hpre, hitem⟩ := exists_first_split _ _ hex2
  obtain ⟨y, hy⟩ := find?_isSome_of_exists _ _ hex2
  have hmod := modifyFirst_split (fun (it : CartItem) => it.id == productId)
    (fun it => it.setQuantity q) pre post item hpre hitem
  have hnot : ¬ q ≤ 0 := not_le.mpr hq
  have hres : (c.updateQuantity productId q).items
      = pre ++ { item with quantity := q } :: post := by
    simp only [Cart.updateQuantity, hy, hnot, if_false]
    rw [hsplit, hmod]
    simp [CartItem.setQuantity, max_eq_right (le_of_lt hq)]
  refine ⟨pre, post, item, hsplit, fun y hy => by simpa using hpre y hy,
    by simpa using hitem, hres, ?_⟩
  rw [hres, hsplit]
  simp

/-- Witness for C8 on a cart that holds the product and on one that does not. -/
theorem Cart.updateQuantity_pos_sets_witness :
    (∃ (pre post : List CartItem) (item : CartItem),
        (Cart.mk [⟨"p0", ⟨"p0", 7⟩, 1⟩, ⟨"p1", ⟨"p1", 10⟩, 2⟩]).items = pre ++ item :: post
        ∧ (∀ y ∈ pre, y.id ≠ "p1") ∧ item.id = "p1"
        ∧ ((Cart.mk [⟨"p0", ⟨"p0", 7⟩, 1⟩, ⟨"p1", ⟨"p1", 10⟩, 2⟩]).updateQuantity "p1" 9).items
            = pre ++ { item with quantity := 9 } :: post
        ∧ ((Cart.mk [⟨"p0", ⟨"p0", 7⟩, 1⟩, ⟨"p1", ⟨"p1", 10⟩, 2⟩]).updateQuantity
              "p1" 9).items.length = 2)
    ∧ (Cart.mk [⟨"p0", ⟨"p0", 7⟩, 1⟩]).updateQuantity "p1" 9 = Cart.mk [⟨"p0", ⟨"p0", 7⟩, 1⟩] :=
  ⟨Cart.updateQuantity_pos_sets.1 (Cart.mk [⟨"p0", ⟨"p0", 7⟩, 1⟩, ⟨"p1", ⟨"p1", 10⟩, 2⟩])
      "p1" 9 (by decide) ⟨⟨"p1", ⟨"p1", 10⟩, 2⟩, by simp, rfl⟩,
   Cart.updateQuantity_pos_sets.2 (Cart.mk [⟨"p0", ⟨"p0", 7⟩, 1⟩]) "p1" 9 (by decide)⟩

/-! ## Properties of `create` -/

namespace PostgresOrderRepository

theorem orderQuery_ne_commit : orderQuery ≠ "COMMIT" := by decide
theorem itemQuery_ne_commit : itemQuery ≠ "COMMIT" := by decide

/-- The loop on a connection with an open transaction, when the database lets `k` item
inserts succeed and makes the next one throw `e`. -/
theorem insertItems_fault (row : OrderRow) (e : JsError) (rest : List (Option JsError)) :
    ∀ (items : List OrderItemData) (k : Nat) (orderItems : List OrderItemRow)
      (c : Client) (w : Store),
      k < items.length → c.faults = List.replicate k none ++ some e :: rest →
      c.txn = some w →
      ∃ c' : Client, insertItems (some row) items orderItems c = (.error e, c')
        ∧ c'.log = c.log
            ++ (items.take (k + 1)).map (fun item => ⟨itemQuery, itemValues row.id item⟩)
        ∧ c'.faults = rest ∧ c'.committed = c.committed ∧ c'.released = c.released
        ∧ ∃ w', c'.txn = some w' := by
  intro items
  induction items with
  | nil => intro k _ _ _ hk; simp at hk
  | cons item items ih =>
    intro k orderItems c w hk hfaults htxn
    cases k with
    | zero =>
      simp only [List.replicate_zero, List.nil_append] at hfaults
      refine ⟨{ c with log := c.log ++ [⟨itemQuery, itemValues row.id item⟩], faults := rest },
        ?_, ?_, rfl, rfl, rfl, w, htxn⟩
      · simp [insertItems, Client.queryItems, Client.send, hfaults]
      · simp
    | succ k =>
      have hk2 : k < items.length := by simpa using hk
      have hfaults2 : c.faults = none :: (List.replicate k none ++ some e :: rest) := by
        simpa [List.replicate_succ] using hfaults
      obtain ⟨c', hrun, hlog, hf, hc, hr, hw⟩ := ih k
        (orderItems ++ [itemRowOfValues (itemValues row.id item)])
        ({ c with log := c.log ++ [⟨itemQuery, itemValues row.id item⟩],
                  faults := List.replicate k none ++ some e :: rest,
                  txn := some { w with order_items :=
                    w.order_items ++ [itemRowOfValues (itemValues row.id item)] } })
        _ hk2 rfl rfl
      refine ⟨c', ?_, ?_, hf, hc, hr, hw⟩
      · simp [insertItems, Client.queryItems, Client.send, hfaults2, Client.write, htxn, hrun]
      · simp [hlog]

theorem query_begin_ok (c : Client) (fs : List (Option JsError))
    (hfaults : c.faults = none :: fs) :
    c.query "BEGIN"
      = (.ok (),
         { c with
           log := c.log ++ [⟨"BEGIN", []⟩], faults := fs,
           txn := some (c.txn.getD c.committed) }) := by
  cases htxn : c.txn <;>
    simp [Client.query, Client.send, hfaults, Client.control, htxn]

theorem queryOrders_insert_ok (c : Client) (fs : List (Option JsError)) (w : Store)
    (values : List JsVal) (hfaults : c.faults = none :: fs) (htxn : c.txn = some w) :
    c.queryOrders orderQuery values
      = (.ok { rows := [orderRowOfValues values], rowCount := 1 },
         { c with
           log := c.log ++ [⟨orderQuery, values⟩], faults := fs,
           txn := some { w with orders := w.orders ++ [orderRowOfValues values] } }) := by
  simp [Client.queryOrders, Client.send, hfaults, Client.write, htxn]

theorem query_rollback (c : Client) :
    (c.query "ROLLBACK").2.log = c.log ++ [⟨"ROLLBACK", []⟩]
    ∧ (c.query "ROLLBACK").2.committed = c.committed
    ∧ (c.query "ROLLBACK").2.released = c.released
    ∧ (c.faults.head?.join = none → (c.query "ROLLBACK").1 = .ok ())
    ∧ (∀ e2, c.faults.head? = some (some e2) → (c.query "ROLLBACK").1 = .error e2) := by
  cases hf : c.faults with
  | nil => simp [Client.query, Client.send, hf, Client.control]
  | cons o fs =>
    cases o with
    | none => simp [Client.query, Client.send, hf, Client.control]
    | some e0 => simp [Client.query, Client.send, hf, Client.control]

theorem create_item_fault (js : Builtins) (orderData : OrderData) (client : Client)
    (k : Nat) (e : JsError) (rest : List (Option JsError))
    (hk1 : 1 ≤ k) (hk2 : k ≤ orderData.items.length)
    (hfaults : client.faults = List.replicate (k + 1) none ++ some e :: rest) :
    (create js orderData client).2.log = client.log ++ issuedUntilFault js orderData k
    ∧ (create js orderData client).2.committed = client.committed
    ∧ (rest.head?.join = none → (create js orderData client).1 = .error e)
    ∧ (∀ e2, rest.head? = some (some e2) → (create js orderData client).1 = .error e2) := by
  obtain ⟨j, rfl⟩ : ∃ j, k = j + 1 := ⟨k - 1, by omega⟩
  have hfaults2 : client.faults
      = none :: none :: (List.replicate j none ++ some e :: rest) := by
    simpa [List.replicate_succ] using hfaults
  have hbegin := query_begin_ok client _ hfaults2
  have horder := queryOrders_insert_ok
    { client with
      log := client.log ++ [⟨"BEGIN", []⟩],
      faults := none :: (List.replicate j none ++ some e :: rest),
      txn := some (client.txn.getD client.committed) }
    _ _ (orderValues js orderData) rfl rfl
  obtain ⟨c3, hloop, hlog3, hf3, hcom3, hrel3, w3, htxn3⟩ :=
    insertItems_fault (orderRowOfValues (orderValues js orderData)) e rest orderData.items j []
      { client with
        log := client.log ++ [⟨"BEGIN", []⟩] ++ [⟨orderQuery, orderValues js orderData⟩],
        faults := List.replicate j none ++ some e :: rest,
        txn := some { client.txn.getD client.committed with
          orders := (client.txn.getD client.committed).orders
            ++ [orderRowOfValues (orderValues js orderData)] } }
      _ (by omega) rfl rfl
  have htry : createTry js orderData client = (.error e, c3) := by
    simp only [createTry, hbegin, horder, List.head?_cons, hloop]
  have hrb := query_rollback c3
  have hid : (orderRowOfValues (orderValues js orderData)).id = sqlParam orderData.id := rfl
  unfold create
  rw [htry]
  simp only
  rcases hq : c3.query "ROLLBACK" with ⟨r, c4⟩
  rw [hq] at hrb
  obtain ⟨hlog4, hcom4, -, hok, herr⟩ := hrb
  simp only at hlog4 hcom4 hok herr
  have hlogfinal : c4.log = client.log ++ issuedUntilFault js orderData (j + 1) := by
    rw [hlog4, hlog3, hid]
    simp [issuedUntilFault]
  rw [hf3] at hok herr
  cases r with
  | error e2 =>
    refine ⟨by simpa [Client.release] using hlogfinal,
      by simp [Client.release, hcom4, hcom3], ?_, ?_⟩
    · intro hnone
      have := hok hnone
      simp at this
    · intro e2' he2
      have := herr e2' he2
      simpa using this
  | ok u =>
    refine ⟨by simpa [Client.release] using hlogfinal,
      by simp [Client.release, hcom4, hcom3], ?_, ?_⟩
    · intro _; rfl
    · intro e2' he2
      have := herr e2' he2
      simp at this

theorem issuedUntilFault_texts (js : Builtins) (orderData : OrderData) (k : Nat) :
    "ROLLBACK" ∈ (issuedUntilFault js orderData k).map Query.text
    ∧ "COMMIT" ∉ (issuedUntilFault js orderData k).map Query.text := by
  have h1 : "COMMIT" ≠ "BEGIN" := by decide
  have h2 : "COMMIT" ≠ "ROLLBACK" := by decide
  have h3 : "COMMIT" ≠ orderQuery := fun h => orderQuery_ne_commit h.symm
  have h4 : "COMMIT" ≠ itemQuery := fun h => itemQuery_ne_commit h.symm
  constructor
  · simp [issuedUntilFault]
  · simp only [issuedUntilFault, List.map_append, List.map_cons, List.map_nil, List.map_map,
      List.mem_append, List.mem_cons, List.mem_map, Function.comp, not_or]
    refine ⟨⟨?_, ?_⟩, ?_⟩
    · simp [h1, h3]
    · rintro ⟨item, _, hitem⟩
      exact h4 hitem.symm
    · simp [h2]

/-- C9, as the code has it: for every order payload with `N ≥ 1` items and every `k`
with `1 ≤ k ≤ N`, when `BEGIN`, the order insert and the first `k - 1` item inserts
succeed and the insert of item `k` throws `e`, `create` sends exactly `BEGIN`, the order
insert, the `k` item inserts and `ROLLBACK` (so `ROLLBACK` is sent and `COMMIT` is not),
the committed tables are what they were before the call (no order row and no item row
persists), and the error thrown to the caller is `e` itself when the `ROLLBACK`
succeeds; when the `ROLLBACK` throws too, the error thrown is that of the `ROLLBACK`. -/
theorem create_item_insert_fault_rolls_back (js : Builtins) (orderData : OrderData)
    (client : Client) (k : Nat) (e : JsError) (rest : List (Option JsError))
    (hk1 : 1 ≤ k) (hk2 : k ≤ orderData.items.length)
    (hfaults : client.faults = List.replicate (k + 1) none ++ some e :: rest) :
    (create js orderData client).2.log = client.log ++ issuedUntilFault js orderData k
    ∧ "ROLLBACK" ∈ (issuedUntilFault js orderData k).map Query.text
    ∧ "COMMIT" ∉ (issuedUntilFault js orderData k).map Query.text
    ∧ (create js orderData client).2.committed = client.committed
    ∧ (rest.head?.join = none → (create js orderData client).1 = .error e)
    ∧ (∀ e2, rest.head? = some (some e2) → (create js orderData client).1 = .error e2) := by
  obtain ⟨hlog, hcom, hok, herr⟩ := create_item_fault js orderData client k e rest hk1 hk2 hfaults
  obtain ⟨hrb, hnc⟩ := issuedUntilFault_texts js orderData k
  exact ⟨hlog, hrb, hnc, hcom, hok, herr⟩

/-- Witness for C9: two items, the insert of the last one throws, the `ROLLBACK`
succeeds. -/
theorem create_item_insert_fault_rolls_back_witness :
    (create sampleBuiltins (sampleOrder [sampleItem "i1", sampleItem "i2"])
        (Client.fresh [none, none, none, some ⟨"error", "insert failed"⟩])).2.committed
      = { orders := [], order_items := [] }
    ∧ (create sampleBuiltins (sampleOrder [sampleItem "i1", sampleItem "i2"])
        (Client.fresh [none, none, none, some ⟨"error", "insert failed"⟩])).1
      = .error ⟨"error", "insert failed"⟩ :=
  ⟨(create_item_insert_fault_rolls_back sampleBuiltins
      (sampleOrder [sampleItem "i1", sampleItem "i2"])
      (Client.fresh [none, none, none, some ⟨"error", "insert failed"⟩]) 2
      ⟨"error", "insert failed"⟩ [] (by decide) (by decide) rfl).2.2.2.1,
   (create_item_insert_fault_rolls_back sampleBuiltins
      (sampleOrder [sampleItem "i1", sampleItem "i2"])
      (Client.fresh [none, none, none, some ⟨"error", "insert failed"⟩]) 2
      ⟨"error", "insert failed"⟩ [] (by decide) (by decide) rfl).2.2.2.2.1 rfl⟩

/-- C9 as stated fails: with one item, when the item insert throws "insert failed" and
the `ROLLBACK` then throws "connection lost", the error `create` throws to the caller is
"connection lost" and not the error of the insert. -/
theorem create_rollback_error_replaces_insert_error :
    (create sampleBuiltins (sampleOrder [sampleItem "i1"])
        (Client.fresh [none, none, some ⟨"error", "insert failed"⟩,
          some ⟨"error", "connection lost"⟩])).1
      = .error ⟨"error", "connection lost"⟩
    ∧ (create sampleBuiltins (sampleOrder [sampleItem "i1"])
        (Client.fresh [none, none, some ⟨"error", "insert failed"⟩,
          some ⟨"error", "connection lost"⟩])).1
      ≠ .error ⟨"error", "insert failed"⟩ := by
  have h : (create sampleBuiltins (sampleOrder [sampleItem "i1"])
        (Client.fresh [none, none, some ⟨"error", "insert failed"⟩,
          some ⟨"error", "connection lost"⟩])).1
      = .error ⟨"error", "connection lost"⟩ := by rfl
  refine ⟨h, ?_⟩
  rw [h]
  intro hne
  injection hne with hne
  exact absurd hne (by decide)

/-- The loop on a connection with an open transaction, whatever the database decides:
the committed tables are untouched, and either an error is thrown, or every item row is
in the working copy and in `orderItems`. -/
theorem insertItems_spec (row : OrderRow) :
    ∀ (items : List OrderItemData) (orderItems : List OrderItemRow) (c : Client) (w : Store),
      c.txn = some w →
      (insertItems (some row) items orderItems c).2.committed = c.committed
      ∧ ((∃ e, (insertItems (some row) items orderItems c).1 = .error e)
        ∨ ((insertItems (some row) items orderItems c).1
              = .ok (orderItems
                  ++ items.map (fun item => itemRowOfValues (itemValues row.id item)))
            ∧ (insertItems (some row) items orderItems c).2.txn
              = some { w with order_items := w.order_items
                  ++ items.map (fun item => itemRowOfValues (itemValues row.id item)) })) := by
  intro items
  induction items with
  | nil =>
    intro orderItems c w htxn
    exact ⟨rfl, Or.inr ⟨by simp [insertItems], by simp [insertItems, htxn]⟩⟩
  | cons item items ih =>
    intro orderItems c w htxn
    have hstep : (∃ e, insertItems (some row) (item :: items) orderItems c
          = (.error e, (c.send ⟨itemQuery, itemValues row.id item⟩).2))
        ∨ insertItems (some row) (item :: items) orderItems c
          = insertItems (some row) items
              (orderItems ++ [itemRowOfValues (itemValues row.id item)])
              { c with
                log := c.log ++ [⟨itemQuery, itemValues row.id item⟩],
                faults := c.faults.tail,
                txn := some { w with order_items :=
                  w.order_items ++ [itemRowOfValues (itemValues row.id item)] } } := by
      rcases hfl : c.faults with _ | ⟨_ | e, fs⟩
      · right
        simp [insertItems, Client.queryItems, Client.send, hfl, Client.write, htxn]
      · right
        simp [insertItems, Client.queryItems, Client.send, hfl, Client.write, htxn]
      · left
        exact ⟨e, by simp [insertItems, Client.queryItems, Client.send, hfl]⟩
    rcases hstep with ⟨e, hrun⟩ | hrun
    · rw [hrun]
      exact ⟨rfl, Or.inl ⟨e, rfl⟩⟩
    · rw [hrun]
      obtain ⟨hcom, hres⟩ := ih (orderItems ++ [itemRowOfValues (itemValues row.id item)])
        { c with
          log := c.log ++ [⟨itemQuery, itemValues row.id item⟩],
          faults := c.faults.tail,
          txn := some { w with order_items :=
            w.order_items ++ [itemRowOfValues (itemValues row.id item)] } } _ rfl
      refine ⟨hcom, ?_⟩
      rcases hres with herr | ⟨hok, htx⟩
      · exact Or.inl herr
      · refine Or.inr ⟨?_, ?_⟩
        · rw [hok]; simp
        · rw [htx]; simp

theorem query_begin_cases (c : Client) (htxn : c.txn = none) :
    (∃ e c', c.query "BEGIN" = (.error e, c') ∧ c'.committed = c.committed)
    ∨ (∃ c1, c.query "BEGIN" = (.ok (), c1) ∧ c1.committed = c.committed
        ∧ c1.txn = some c.committed) := by
  rcases hfl : c.faults with _ | ⟨_ | e, fs⟩
  · right
    refine ⟨{ c with
              log := c.log ++ [⟨"BEGIN", []⟩], faults := [],
              txn := some c.committed }, ?_, rfl, rfl⟩
    simp [Client.query, Client.send, hfl, Client.control, htxn]
  · right
    refine ⟨{ c with
              log := c.log ++ [⟨"BEGIN", []⟩], faults := fs,
              txn := some c.committed }, ?_, rfl, rfl⟩
    simp [Client.query, Client.send, hfl, Client.control, htxn]
  · left
    exact ⟨e, { c with log := c.log ++ [⟨"BEGIN", []⟩], faults := fs },
      by simp [Client.query, Client.send, hfl], rfl⟩

theorem query_commit_cases (c : Client) (w : Store) (htxn : c.txn = some w) :
    (∃ e c', c.query "COMMIT" = (.error e, c') ∧ c'.committed = c.committed)
    ∨ (∃ c1, c.query "COMMIT" = (.ok (), c1) ∧ c1.committed = w) := by
  have hne : ("COMMIT" = "BEGIN") = False := by decide
  rcases hfl : c.faults with _ | ⟨_ | e, fs⟩
  · right
    refine ⟨{ c with
              log := c.log ++ [⟨"COMMIT", []⟩], faults := [],
              committed := w, txn := none }, ?_, rfl⟩
    simp [Client.query, Client.send, hfl, Client.control, htxn, hne]
  · right
    refine ⟨{ c with
              log := c.log ++ [⟨"COMMIT", []⟩], faults := fs,
              committed := w, txn := none }, ?_, rfl⟩
    simp [Client.query, Client.send, hfl, Client.control, htxn, hne]
  · left
    exact ⟨e, { c with log := c.log ++ [⟨"COMMIT", []⟩], faults := fs },
      by simp [Client.query, Client.send, hfl], rfl⟩

theorem queryOrders_cases (c : Client) (w : Store) (values : List JsVal)
    (htxn : c.txn = some w) :
    (∃ e c', c.queryOrders orderQuery values = (.error e, c') ∧ c'.committed = c.committed)
    ∨ (∃ c1, c.queryOrders orderQuery values
          = (.ok { rows := [orderRowOfValues values], rowCount := 1 }, c1)
        ∧ c1.committed = c.committed
        ∧ c1.txn = some { w with orders := w.orders ++ [orderRowOfValues values] }) := by
  rcases hfl : c.faults with _ | ⟨_ | e, fs⟩
  · right
    refine ⟨{ c with
              log := c.log ++ [⟨orderQuery, values⟩], faults := [],
              txn := some { w with orders := w.orders ++ [orderRowOfValues values] } },
      ?_, rfl, rfl⟩
    simp [Client.queryOrders, Client.send, hfl, Client.write, htxn]
  · right
    refine ⟨{ c with
              log := c.log ++ [⟨orderQuery, values⟩], faults := fs,
              txn := some { w with orders := w.orders ++ [orderRowOfValues values] } },
      ?_, rfl, rfl⟩
    simp [Client.queryOrders, Client.send, hfl, Client.write, htxn]
  · left
    exact ⟨e, { c with log := c.log ++ [⟨orderQuery, values⟩], faults := fs },
      by simp [Client.queryOrders, Client.send, hfl], rfl⟩

theorem parseIfString_sqlParam_ok (js : Builtins) (v : JsVal)
    (hjson : ∀ (v : JsVal) (s : String), js.jsonStringify v = .str s →
      ∃ r, js.jsonParse s = .ok r) :
    ∃ r, parseIfString js (sqlParam (js.jsonStringify v)) = .ok r := by
  cases h : js.jsonStringify v with
  | str s =>
    obtain ⟨r, hr⟩ := hjson v s h
    exact ⟨r, by simp [parseIfString, sqlParam, hr]⟩
  | undefined => exact ⟨.null, rfl⟩
  | null => exact ⟨.null, rfl⟩
  | bool b => exact ⟨.bool b, rfl⟩
  | num n => exact ⟨.num n, rfl⟩
  | obj j => exact ⟨.obj j, rfl⟩

theorem mapOrderItems_ok_of_ne_nil (js : Builtins) (rows : List OrderItemRow)
    (h : rows ≠ []) : ∃ items, mapOrderItems js (some rows) = .ok items := by
  cases rows with
  | nil => exact absurd rfl h
  | cons first rest =>
    by_cases ht : first.id.truthy = true
    · simp [mapOrderItems, ht]
    · exact ⟨[], by simp [mapOrderItems, ht]⟩

/-- The `try` block for a payload with at least one item, on a connection without an
open transaction, whatever the database decides: either it returns an `Order` and the
committed tables have gained the order row and one row per item, or it throws and the
committed tables are as before. -/
theorem createTry_atomic_of_items_ne_nil (js : Builtins) (orderData : OrderData)
    (client : Client) (hitems : orderData.items ≠ []) (htxn : client.txn = none)
    (hjson : ∀ (v : JsVal) (s : String), js.jsonStringify v = .str s →
      ∃ r, js.jsonParse s = .ok r) :
    (∃ order c', createTry js orderData client = (.ok order, c')
      ∧ c'.committed
        = { orders := client.committed.orders ++ [orderRowOfValues (orderValues js orderData)]
            order_items := client.committed.order_items
              ++ orderData.items.map
                  (fun item => itemRowOfValues (itemValues (sqlParam orderData.id) item)) })
    ∨ (∃ e c', createTry js orderData client = (.error e, c')
      ∧ c'.committed = client.committed) := by
  have hid : (orderRowOfValues (orderValues js orderData)).id = sqlParam orderData.id := rfl
  rcases query_begin_cases client htxn with ⟨e, c', hq, hc⟩ | ⟨c1, hbegin, hcom1, htxn1⟩
  · exact Or.inr ⟨e, c', by simp [createTry, hq], hc⟩
  rcases queryOrders_cases c1 client.committed (orderValues js orderData) htxn1 with
    ⟨e, c', hq, hc⟩ | ⟨c2, horder, hcom2, htxn2⟩
  · exact Or.inr ⟨e, c', by simp [createTry, hbegin, hq], hc.trans hcom1⟩
  obtain ⟨hcom3, hres3⟩ := insertItems_spec (orderRowOfValues (orderValues js orderData))
    orderData.items [] c2 _ htxn2
  rcases hloop : insertItems (some (orderRowOfValues (orderValues js orderData)))
    orderData.items [] c2 with ⟨r3, c3⟩
  rw [hloop] at hcom3 hres3
  simp only at hcom3 hres3
  rcases hres3 with ⟨e, he⟩ | ⟨hok, htx⟩
  · subst he
    exact Or.inr ⟨e, c3, by simp [createTry, hbegin, horder, hloop],
      hcom3.trans (hcom2.trans hcom1)⟩
  subst hok
  rcases query_commit_cases c3 _ htx with ⟨e, c', hq, hc⟩ | ⟨c4, hcommit, hcom4⟩
  · exact Or.inr ⟨e, c', by simp [createTry, hbegin, horder, hloop, hq],
      hc.trans (hcom3.trans (hcom2.trans hcom1))⟩
  obtain ⟨items, hitemsok⟩ := mapOrderItems_ok_of_ne_nil js
    (orderData.items.map (fun item =>
      itemRowOfValues (itemValues (orderRowOfValues (orderValues js orderData)).id item)))
    (by simpa using hitems)
  obtain ⟨b, hb⟩ := parseIfString_sqlParam_ok js orderData.billingAddress hjson
  obtain ⟨sh, hsh⟩ := parseIfString_sqlParam_ok js orderData.shippingAddress hjson
  have hbill : (orderRowOfValues (orderValues js orderData)).billing_address
      = sqlParam (js.jsonStringify orderData.billingAddress) := rfl
  have hship : (orderRowOfValues (orderValues js orderData)).shipping_address
      = sqlParam (js.jsonStringify orderData.shippingAddress) := rfl
  obtain ⟨order, horderok⟩ : ∃ order : Order,
      _mapToOrder js
        { orderRowOfValues (orderValues js orderData) with
          order_items := some (orderData.items.map (fun item => itemRowOfValues
            (itemValues (orderRowOfValues (orderValues js orderData)).id item))) }
        = .ok order := by
    simp only [_mapToOrder, hitemsok, hbill, hship, hb, hsh]
    exact ⟨_, rfl⟩
  refine Or.inl ⟨order, c4, ?_, ?_⟩
  · simp only [createTry, hbegin, horder, hloop, hcommit, List.head?_cons, Option.getD_some,
      List.nil_append, horderok]
  · rw [hcom4, hid]

/-- For a payload with at least one item, on a connection without an open transaction
and with built-ins where `JSON.parse` accepts what `JSON.stringify` returns, `create` is
atomic whatever the database decides: either it returns an `Order` and the committed
tables have gained the order row and one row per item, or it throws and the committed
tables are as before. -/
theorem create_atomic_of_items_ne_nil (js : Builtins) (orderData : OrderData)
    (client : Client) (hitems : orderData.items ≠ []) (htxn : client.txn = none)
    (hjson : ∀ (v : JsVal) (s : String), js.jsonStringify v = .str s →
      ∃ r, js.jsonParse s = .ok r) :
    (∃ order, (create js orderData client).1 = .ok order
      ∧ (create js orderData client).2.committed
        = { orders := client.committed.orders ++ [orderRowOfValues (orderValues js orderData)]
            order_items := client.committed.order_items
              ++ orderData.items.map
                  (fun item => itemRowOfValues (itemValues (sqlParam orderData.id) item)) })
    ∨ (∃ e, (create js orderData client).1 = .error e
      ∧ (create js orderData client).2.committed = client.committed) := by
  rcases createTry_atomic_of_items_ne_nil js orderData client hitems htxn hjson with
    ⟨order, c', htry, hc⟩ | ⟨e, c', htry, hc⟩
  · exact Or.inl ⟨order, by simp [create, htry], by simp [create, htry, Client.release, hc]⟩
  · right
    obtain ⟨-, hcom, -, -, -⟩ := query_rollback c'
    rcases hq : c'.query "ROLLBACK" with ⟨r, c4⟩
    rw [hq] at hcom
    simp only at hcom
    cases r with
    | error e2 =>
      exact ⟨e2, by simp [create, htry, hq], by simp [create, htry, hq, Client.release, hcom, hc]⟩
    | ok u =>
      exact ⟨e, by simp [create, htry, hq], by simp [create, htry, hq, Client.release, hcom, hc]⟩

/-- C10 on the code: for the payload with the empty item list and a database on which
every statement succeeds, `create` sends `BEGIN`, the order insert and `COMMIT`, then
`_mapToOrder` throws the `TypeError` of reading `id` of `undefined`; the `ROLLBACK` of
the `catch` block comes after the `COMMIT`, so `create` throws while the order row is
in the committed table. (For a payload with at least one item `create` is atomic:
`create_atomic_of_items_ne_nil`.) -/
theorem create_empty_items_throws_after_commit :
    (create sampleBuiltins (sampleOrder []) (Client.fresh [])).1
      = .error (JsError.undefinedProperty "id")
    ∧ (create sampleBuiltins (sampleOrder []) (Client.fresh [])).2.committed.orders
      = [orderRowOfValues (orderValues sampleBuiltins (sampleOrder []))]
    ∧ (create sampleBuiltins (sampleOrder []) (Client.fresh [])).2.log.map Query.text
      = ["BEGIN", orderQuery, "COMMIT", "ROLLBACK"] := by
  refine ⟨by rfl, by rfl, by rfl⟩

/-! ## Properties of `update` -/

theorem updateQuery_eq_spec (id : JsVal) (updateData : UpdateData)
    (h : updateData.orderStatus ≠ .undefined ∨ updateData.paymentStatus ≠ .undefined
      ∨ updateData.notes ≠ .undefined ∨ updateData.trackingNumber ≠ .undefined) :
    updateQuery id updateData = .ok (updateQuerySpec id updateData) := by
  by_cases h1 : updateData.orderStatus = .undefined <;>
  by_cases h2 : updateData.paymentStatus = .undefined <;>
  by_cases h3 : updateData.notes = .undefined <;>
  by_cases h4 : updateData.trackingNumber = .undefined <;>
  simp [updateQuery, updateQuerySpec, definedFields, numberedAssignments, h1, h2, h3, h4] at h ⊢

theorem updateQuery_none (id : JsVal) (updateData : UpdateData)
    (h1 : updateData.orderStatus = .undefined) (h2 : updateData.paymentStatus = .undefined)
    (h3 : updateData.notes = .undefined) (h4 : updateData.trackingNumber = .undefined) :
    updateQuery id updateData = .error { name := "Error", message := "No fields to update" } := by
  simp [updateQuery, h1, h2, h3, h4]

theorem numberedAssignments_length (k : Nat) (fields : List (String × JsVal)) :
    (numberedAssignments k fields).length = fields.length := by
  induction fields generalizing k with
  | nil => rfl
  | cons field rest ih =>
    obtain ⟨column, value⟩ := field
    simp [numberedAssignments, ih]

theorem numberedAssignments_get (fields : List (String × JsVal)) :
    ∀ (k i : Nat) (field : String × JsVal), fields[i]? = some field →
      (numberedAssignments k fields)[i]? = some (field.1 ++ " = $" ++ toString (k + i)) := by
  induction fields with
  | nil => intro k i field h; simp at h
  | cons head rest ih =>
    intro k i field h
    obtain ⟨column, value⟩ := head
    cases i with
    | zero =>
      simp at h
      subst h
      simp [numberedAssignments]
    | succ i =>
      simp at h
      have := ih (k + 1) i field h
      simpa [numberedAssignments, Nat.add_assoc, Nat.add_comm 1 i] using this

/-- C12: for every id and every payload in which none of `orderStatus`, `paymentStatus`,
`notes`, `trackingNumber` is defined, whatever other keys it carries, `update` throws
the error with message "No fields to update" and sends no statement to the pool. -/
theorem update_without_defined_field_throws (js : Builtins) (id : JsVal)
    (updateData : UpdateData) (pool : Pool)
    (h1 : updateData.orderStatus = .undefined) (h2 : updateData.paymentStatus = .undefined)
    (h3 : updateData.notes = .undefined) (h4 : updateData.trackingNumber = .undefined) :
    (update js id updateData pool).1
      = .error { name := "Error", message := "No fields to update" }
    ∧ (update js id updateData pool).2.log = pool.log := by
  simp [update, updateQuery_none id updateData h1 h2 h3 h4]

/-- Witness for C12: the empty payload, and a payload with only a key outside the
whitelist. -/
theorem update_without_defined_field_throws_witness :
    (update sampleBuiltins (.str "o1")
        { orderStatus := .undefined, paymentStatus := .undefined, notes := .undefined,
          trackingNumber := .undefined, otherKeys := [] }
        (Pool.answering [])).1
      = .error { name := "Error", message := "No fields to update" }
    ∧ (update sampleBuiltins (.str "o1")
        { orderStatus := .undefined, paymentStatus := .undefined, notes := .undefined,
          trackingNumber := .undefined, otherKeys := [("totalAmount", .num 0)] }
        (Pool.answering [])).2.log = [] :=
  ⟨(update_without_defined_field_throws sampleBuiltins (.str "o1")
      { orderStatus := .undefined, paymentStatus := .undefined, notes := .undefined,
        trackingNumber := .undefined, otherKeys := [] }
      (Pool.answering []) rfl rfl rfl rfl).1,
   (update_without_defined_field_throws sampleBuiltins (.str "o1")
      { orderStatus := .undefined, paymentStatus := .undefined, notes := .undefined,
        trackingNumber := .undefined, otherKeys := [("totalAmount", .num 0)] }
      (Pool.answering []) rfl rfl rfl rfl).2⟩

/-- C13: for every id and every payload with at least one of the four whitelisted
fields defined, the statement `update` builds and sends is the one of `updateQuerySpec`:
its `SET` list is one assignment `column = $k` per defined field, in the order
`order_status`, `payment_status`, `notes`, `tracking_number`, followed by
`updated_at = CURRENT_TIMESTAMP` and nothing else; placeholder `$k` belongs to the
`k`-th defined field and the `k`-th bound value is that field's value; the id is the
last bound value and the `WHERE` clause reads the placeholder after the fields', so
there are as many placeholders as bound values; and the other keys of the payload do
not change the statement. -/
theorem update_sets_exactly_defined_fields (js : Builtins) (id : JsVal)
    (updateData : UpdateData) (pool : Pool)
    (h : updateData.orderStatus ≠ .undefined ∨ updateData.paymentStatus ≠ .undefined
      ∨ updateData.notes ≠ .undefined ∨ updateData.trackingNumber ≠ .undefined) :
    updateQuery id updateData = .ok (updateQuerySpec id updateData)
    ∧ (update js id updateData pool).2.log = pool.log ++ [updateQuerySpec id updateData]
    ∧ (∀ (i : Nat) (field : String × JsVal), (definedFields updateData)[i]? = some field →
        (numberedAssignments 1 (definedFields updateData))[i]?
            = some (field.1 ++ " = $" ++ toString (1 + i))
          ∧ (updateQuerySpec id updateData).values[i]? = some field.2)
    ∧ (updateQuerySpec id updateData).values[(definedFields updateData).length]? = some id
    ∧ (updateQuerySpec id updateData).values.length = (definedFields updateData).length + 1
    ∧ (∀ otherKeys : List (String × JsVal),
        updateQuery id { updateData with otherKeys := otherKeys } = updateQuery id updateData) := by
  have hq := updateQuery_eq_spec id updateData h
  refine ⟨hq, ?_, ?_, ?_, ?_, ?_⟩
  · rcases hans : pool.answer (updateQuerySpec id updateData) with e | r <;>
      simp [update, hq, Pool.query, hans]
  · intro i field hfield
    refine ⟨numberedAssignments_get _ 1 i field hfield, ?_⟩
    have hi : i < (definedFields updateData).length := by
      rcases Nat.lt_or_ge i (definedFields updateData).length with hlt | hge
      · exact hlt
      · rw [List.getElem?_eq_none hge] at hfield
        exact absurd hfield (by simp)
    show ((definedFields updateData).map (fun field => field.2) ++ [id])[i]? = some field.2
    rw [List.getElem?_append_left (by simpa using hi), List.getElem?_map, hfield]
    rfl
  · simp [updateQuerySpec, List.getElem?_append_right]
  · simp [updateQuerySpec]
  · intro otherKeys
    rfl

/-- Witness for C13: `orderStatus` and `notes` are defined (`notes` is `null`), and the
payload carries a key outside the whitelist. -/
theorem update_sets_exactly_defined_fields_witness :
    updateQuery (.str "o1")
        { orderStatus := .str "shipped", paymentStatus := .undefined, notes := .null,
          trackingNumber := .undefined, otherKeys := [("totalAmount", .num 0)] }
      = .ok { text := "\n      UPDATE orders \n      SET order_status = $1, notes = $2, "
                ++ "updated_at = CURRENT_TIMESTAMP\n      WHERE id = $3\n      RETURNING *\n    "
              values := [.str "shipped", .null, .str "o1"] } :=
  (update_sets_exactly_defined_fields sampleBuiltins (.str "o1")
      { orderStatus := .str "shipped", paymentStatus := .undefined, notes := .null,
        trackingNumber := .undefined, otherKeys := [("totalAmount", .num 0)] }
      (Pool.answering []) (Or.inl (by decide))).1.trans rfl

/-! ## Properties of `findAll` -/

theorem findAllQuery_eq (filters : FindAllFilters) :
    findAllQuery filters
      = { text := findAllBase ++ numberedConditions 1 (truthyFilters filters)
            ++ " GROUP BY o.id ORDER BY o.created_at DESC"
            ++ paginationText ((truthyFilters filters).length + 1) filters.page filters.limit
          values := (truthyFilters filters).map (fun condition => condition.2)
            ++ paginationValues filters.page filters.limit } := by
  cases h1 : filters.status.truthy <;>
  cases h2 : filters.userId.truthy <;>
  cases h3 : filters.startDate.truthy <;>
  cases h4 : filters.endDate.truthy <;>
  cases h5 : numTruthy filters.limit <;>
  cases h6 : numTruthy filters.page <;>
  simp [findAllQuery, truthyFilters, numberedConditions, paginationText, paginationValues,
    h1, h2, h3, h4, h5, h6, String.append_assoc, -String.reduceAppend]

theorem findAll_log (js : Builtins) (filters : FindAllFilters) (pool : Pool) :
    (findAll js filters pool).2.log = pool.log ++ [findAllQuery filters] := by
  rcases hans : pool.answer (findAllQuery filters) with e | r <;>
    simp [findAll, Pool.query, hans]

/-- C14, as the code has it: for every filter object, the statement `findAll` builds and
sends has one `AND` condition per filter whose value is truthy and none for any other
filter (a missing filter, but also an empty string, `0`, `null` or `false`), in the order
status, userId, startDate, endDate, after the base `WHERE 1=1`; the placeholders are
numbered consecutively from `$1` and the bound values start with the values of the
truthy filters in that order; with no filter the conditions are empty; and
`ORDER BY o.created_at DESC` follows the conditions in every statement. -/
theorem findAll_conditions_for_truthy_filters (js : Builtins) (filters : FindAllFilters)
    (pool : Pool) :
    (findAllQuery filters).text
      = findAllBase ++ numberedConditions 1 (truthyFilters filters)
          ++ " GROUP BY o.id ORDER BY o.created_at DESC"
          ++ paginationText ((truthyFilters filters).length + 1) filters.page filters.limit
    ∧ (findAllQuery filters).values
      = (truthyFilters filters).map (fun condition => condition.2)
          ++ paginationValues filters.page filters.limit
    ∧ (findAllQuery FindAllFilters.empty).text
      = findAllBase ++ " GROUP BY o.id ORDER BY o.created_at DESC"
    ∧ (findAllQuery FindAllFilters.empty).values = []
    ∧ (findAll js filters pool).2.log = pool.log ++ [findAllQuery filters] := by
  refine ⟨?_, ?_, by rfl, by rfl, findAll_log js filters pool⟩
  · rw [findAllQuery_eq]
  · rw [findAllQuery_eq]

/-- C14 as stated fails: the filters `status: ""` and `userId: 0` are present in the
filter object, and the statement built is the one built for no filter at all: it has no
condition for them and binds no value. -/
theorem findAll_falsy_filters_add_no_condition :
    findAllQuery { page := none, limit := none, status := .str "", userId := .num 0,
                   startDate := .undefined, endDate := .undefined }
      = findAllQuery FindAllFilters.empty
    ∧ (findAllQuery { page := none, limit := none, status := .str "", userId := .num 0,
                      startDate := .undefined, endDate := .undefined }).text
      = findAllBase ++ " GROUP BY o.id ORDER BY o.created_at DESC"
    ∧ (findAllQuery { page := none, limit := none, status := .str "", userId := .num 0,
                      startDate := .undefined, endDate := .undefined }).values = [] := by
  refine ⟨by rfl, by rfl, by rfl⟩

/-- C15, as the code has it: for every filter object, with `base` the statement built
for the same filters without `page` and `limit`: when `limit` is falsy (missing or `0`)
the statement is `base`, whatever `page` is; when `limit` is truthy and `page` is falsy
the statement is `base` with a `LIMIT` clause on the next placeholder, bound to `limit`;
when both are truthy an `OFFSET` clause follows on the placeholder after that, bound to
`(page - 1) * limit`, which is `0` for `page = 1`. -/
theorem findAll_pagination (filters : FindAllFilters) :
    (numTruthy filters.limit = false →
      findAllQuery filters = findAllQuery { filters with page := none, limit := none })
    ∧ (∀ l : Int, filters.limit = some l → l ≠ 0 → numTruthy filters.page = false →
      findAllQuery filters
        = { text := (findAllQuery { filters with page := none, limit := none }).text
              ++ " LIMIT $" ++ toString
                ((findAllQuery { filters with page := none, limit := none }).values.length + 1)
            values := (findAllQuery { filters with page := none, limit := none }).values
              ++ [.num l] })
    ∧ (∀ l p : Int, filters.limit = some l → l ≠ 0 → filters.page = some p → p ≠ 0 →
      findAllQuery filters
        = { text := (findAllQuery { filters with page := none, limit := none }).text
              ++ " LIMIT $" ++ toString
                ((findAllQuery { filters with page := none, limit := none }).values.length + 1)
              ++ " OFFSET $" ++ toString
                ((findAllQuery { filters with page := none, limit := none }).values.length + 2)
            values := (findAllQuery { filters with page := none, limit := none }).values
              ++ [.num l, .num ((p - 1) * l)] })
    ∧ (∀ l : Int, filters.limit = some l → l ≠ 0 → filters.page = some 1 →
      (findAllQuery filters).values.getLast? = some (.num 0)) := by
  have hbase : findAllQuery { filters with page := none, limit := none }
      = { text := findAllBase ++ numberedConditions 1 (truthyFilters filters)
            ++ " GROUP BY o.id ORDER BY o.created_at DESC"
          values := (truthyFilters filters).map (fun condition => condition.2) } := by
    rw [findAllQuery_eq]
    simp [truthyFilters, paginationText, paginationValues, numTruthy]
  have htruthy : ∀ (n : Option Int) (m : Int), n = some m → m ≠ 0 → numTruthy n = true := by
    intro n m hn hm
    simp [numTruthy, hn, hm]
  refine ⟨?_, ?_, ?_, ?_⟩
  · intro hl
    rw [hbase, findAllQuery_eq]
    simp [paginationText, paginationValues, hl]
  · intro l hl hl0 hp
    have hlim := htruthy (some l) l rfl hl0
    rw [hbase, findAllQuery_eq]
    simp [paginationText, paginationValues, hlim, hp, hl, String.append_assoc,
      -String.reduceAppend]
  · intro l p hl hl0 hp hp0
    have hlim := htruthy (some l) l rfl hl0
    have hpage := htruthy (some p) p rfl hp0
    rw [hbase, findAllQuery_eq]
    simp [paginationText, paginationValues, hlim, hpage, hl, hp, String.append_assoc,
      -String.reduceAppend]
  · intro l hl hl0 hp
    have hlim := htruthy (some l) l rfl hl0
    have hpage := htruthy (some 1) 1 rfl (by decide)
    rw [findAllQuery_eq]
    simp [paginationValues, hlim, hpage, hl, hp]

/-- Witness for C15: page 2 with limit 10 and a status filter, and page 1. -/
theorem findAll_pagination_witness :
    findAllQuery (pendingOrders (some 2) (some 10))
      = { text := findAllBase ++ " AND o.order_status = $1"
            ++ " GROUP BY o.id ORDER BY o.created_at DESC" ++ " LIMIT $2" ++ " OFFSET $3"
          values := [.str "pending", .num 10, .num 10] }
    ∧ (findAllQuery (pendingOrders (some 1) (some 10))).values.getLast? = some (.num 0) :=
  ⟨((findAll_pagination (pendingOrders (some 2) (some 10))).2.2.1
      10 2 rfl (by decide) rfl (by decide)).trans (by rfl),
   (findAll_pagination (pendingOrders (some 1) (some 10))).2.2.2 10 rfl (by decide) rfl⟩

/-- C15 as stated fails: with `limit: 0` (and `page: 1`) the limit is given, and the
statement built is the one built for no argument at all: it has no `LIMIT` clause and
binds no value. -/
theorem findAll_limit_zero_adds_no_limit :
    findAllQuery { page := some 1, limit := some 0, status := .undefined,
                   userId := .undefined, startDate := .undefined, endDate := .undefined }
      = findAllQuery FindAllFilters.empty
    ∧ (findAllQuery { page := some 1, limit := some 0, status := .undefined,
                      userId := .undefined, startDate := .undefined,
                      endDate := .undefined }).text
      = findAllBase ++ " GROUP BY o.id ORDER BY o.created_at DESC"
    ∧ (findAllQuery { page := some 1, limit := some 0, status := .undefined,
                      userId := .undefined, startDate := .undefined,
                      endDate := .undefined }).values = [] := by
  refine ⟨by rfl, by rfl, by rfl⟩

/-! ## Properties of `getOrderStatistics` -/

/-- C18 on the code: `getOrderStatistics` puts its argument into the text of the
statement and binds no value. The calls with "7d" and with "30d" send different texts,
and the text sent for "1d'; DROP TABLE orders; --" carries the argument's own SQL
between the quotes of the interval. -/
theorem getOrderStatistics_period_in_statement_text :
    (getOrderStatistics (some "7d") (Pool.answering [])).2.log
      = [{ text := statisticsQuery "7d", values := [] }]
    ∧ (getOrderStatistics (some "30d") (Pool.answering [])).2.log
      = [{ text := statisticsQuery "30d", values := [] }]
    ∧ statisticsQuery "7d" ≠ statisticsQuery "30d"
    ∧ statisticsQuery "1d'; DROP TABLE orders; --"
      = "\n      SELECT \n        COUNT(*) as total_orders,\n"
        ++ "        SUM(total_amount) as total_revenue,\n"
        ++ "        AVG(total_amount) as average_order_value,\n"
        ++ "        COUNT(CASE WHEN order_status = 'completed' THEN 1 END) as completed_orders,\n"
        ++ "        COUNT(CASE WHEN order_status = 'pending' THEN 1 END) as pending_orders,\n"
        ++ "        COUNT(CASE WHEN order_status = 'cancelled' THEN 1 END) as cancelled_orders\n"
        ++ "      FROM orders\n"
        ++ "      WHERE created_at >= CURRENT_DATE - INTERVAL '1 days'; DROP TABLE orders; --'\n"
        ++ "    " := by
  refine ⟨by rfl, by rfl, by decide, by rfl⟩

/-! ## Properties of `delete` and of `create` on a database without faults -/

theorem tail_no_fault (fs : List (Option JsError)) (h : ∀ o ∈ fs, o = none) :
    ∀ o ∈ fs.tail, o = none :=
  fun o ho => h o (List.mem_of_mem_tail ho)

theorem send_ok (c : Client) (q : Query) (h : ∀ o ∈ c.faults, o = none) :
    c.send q = (none, { c with log := c.log ++ [q], faults := c.faults.tail }) := by
  rcases hfl : c.faults with _ | ⟨_ | e, fs⟩
  · simp [Client.send, hfl]
  · simp [Client.send, hfl]
  · have := h (some e) (by simp [hfl])
    simp at this

theorem query_ok (c : Client) (text : String) (h : ∀ o ∈ c.faults, o = none) :
    c.query text
      = (.ok (), Client.control
          { c with log := c.log ++ [{ text := text, values := [] }],
                   faults := c.faults.tail } text) := by
  simp only [Client.query, send_ok c _ h]

theorem queryItems_delete_ok (c : Client) (w : Store) (id : JsVal)
    (h : ∀ o ∈ c.faults, o = none) (htxn : c.txn = some w) :
    c.queryItems deleteItemsQuery [id]
      = (.ok { rows := [],
               rowCount := (w.order_items.filter
                              (fun row => sqlEq row.order_id (sqlParam id))).length },
         { c with
           log := c.log ++ [{ text := deleteItemsQuery, values := [id] }],
           faults := c.faults.tail,
           txn := some { w with
                         order_items := w.order_items.filter
                                          (fun row => !sqlEq row.order_id (sqlParam id)) } }) := by
  have hne : (deleteItemsQuery = itemQuery) = False := by decide
  simp [Client.queryItems, send_ok c _ h, hne, Client.write, Client.view, htxn]

theorem queryOrders_delete_ok (c : Client) (w : Store) (id : JsVal)
    (h : ∀ o ∈ c.faults, o = none) (htxn : c.txn = some w) :
    c.queryOrders deleteOrderQuery [id]
      = (.ok { rows := w.orders.filter (fun row => sqlEq row.id (sqlParam id)),
               rowCount := (w.orders.filter
                              (fun row => sqlEq row.id (sqlParam id))).length },
         { c with
           log := c.log ++ [{ text := deleteOrderQuery, values := [id] }],
           faults := c.faults.tail,
           txn := some { w with
                         orders := w.orders.filter
                                     (fun row => !sqlEq row.id (sqlParam id)) } }) := by
  have hne : (deleteOrderQuery = orderQuery) = False := by decide
  simp [Client.queryOrders, send_ok c _ h, hne, Client.write, Client.view, htxn]

/-- The run of `delete` on a connection without an open transaction when no statement
fails. -/
theorem delete_run (id : JsVal) (client : Client)
    (hfaults : ∀ o ∈ client.faults, o = none) (htxn : client.txn = none) :
    delete id client
      = (.ok (decide ((client.committed.orders.filter
                        (fun row => sqlEq row.id (sqlParam id))).length > 0)),
         { committed :=
             { orders := client.committed.orders.filter
                           (fun row => !sqlEq row.id (sqlParam id))
               order_items := client.committed.order_items.filter
                                (fun row => !sqlEq row.order_id (sqlParam id)) }
           txn := none
           log := client.log ++ [{ text := "BEGIN", values := [] },
                                 { text := deleteItemsQuery, values := [id] },
                                 { text := deleteOrderQuery, values := [id] },
                                 { text := "COMMIT", values := [] }]
           faults := client.faults.tail.tail.tail.tail
           released := client.released + 1 }) := by
  have t1 := tail_no_fault _ hfaults
  have t2 := tail_no_fault _ t1
  have t3 := tail_no_fault _ t2
  have hne : ("COMMIT" = "BEGIN") = False := by decide
  have hbegin := query_ok client "BEGIN" hfaults
  simp only [Client.control, htxn, if_true] at hbegin
  rw [delete, deleteTry, hbegin]
  simp only
  rw [queryItems_delete_ok _ client.committed id t1 rfl]
  simp only
  rw [queryOrders_delete_ok _ _ id t2 rfl]
  simp only
  rw [query_ok _ "COMMIT" t3]
  simp [Client.control, hne, Client.release]

/-- C16: on a connection without an open transaction, when no statement fails:
`delete(id)` sends `BEGIN`, the delete of the item rows, the delete of the order row and
`COMMIT`, in this order; it returns `true` exactly when an order row with that id
existed; when none existed, on tables where every item row belongs to an order row (the
foreign key), the tables are unchanged; afterwards the order rows are the old ones with
another id, the item rows the old ones of other orders, each in their old order, so no
order row with that id and no item row with that `order_id` is left. -/
theorem delete_removes_order_and_items (id : JsVal) (client : Client)
    (hfaults : ∀ o ∈ client.faults, o = none) (htxn : client.txn = none) :
    (delete id client).1
      = .ok (client.committed.orders.any (fun order => sqlEq order.id (sqlParam id)))
    ∧ ((∀ item ∈ client.committed.order_items,
          ∃ order ∈ client.committed.orders, order.id = item.order_id) →
        client.committed.orders.any (fun order => sqlEq order.id (sqlParam id)) = false →
        (delete id client).2.committed = client.committed)
    ∧ (delete id client).2.committed.orders
      = client.committed.orders.filter (fun order => !sqlEq order.id (sqlParam id))
    ∧ (delete id client).2.committed.order_items
      = client.committed.order_items.filter
          (fun item => !sqlEq item.order_id (sqlParam id))
    ∧ (∀ order ∈ (delete id client).2.committed.orders,
        sqlEq order.id (sqlParam id) = false)
    ∧ (∀ item ∈ (delete id client).2.committed.order_items,
        sqlEq item.order_id (sqlParam id) = false)
    ∧ (delete id client).2.log
      = client.log ++ [{ text := "BEGIN", values := [] },
          { text := deleteItemsQuery, values := [id] },
          { text := deleteOrderQuery, values := [id] },
          { text := "COMMIT", values := [] }] := by
  rw [delete_run id client hfaults htxn]
  refine ⟨?_, ?_, rfl, rfl, ?_, ?_, rfl⟩
  · show Except.ok (decide ((client.committed.orders.filter
        (fun row => sqlEq row.id (sqlParam id))).length > 0)) = _
    congr 1
    rw [Bool.eq_iff_iff]
    simp only [decide_eq_true_eq, List.any_eq_true, gt_iff_lt, List.length_pos]
    constructor
    · intro hne
      obtain ⟨order, horder⟩ := List.exists_mem_of_ne_nil _ hne
      rw [List.mem_filter] at horder
      exact ⟨order, horder.1, horder.2⟩
    · rintro ⟨order, hmem, heq⟩
      exact List.ne_nil_of_mem (List.mem_filter.mpr ⟨hmem, heq⟩)
  · intro hfk hnone
    have horders : ∀ order ∈ client.committed.orders,
        sqlEq order.id (sqlParam id) = false := by
      intro order hmem
      have := List.any_eq_false.mp hnone order hmem
      simpa using this
    have hitems : ∀ item ∈ client.committed.order_items,
        sqlEq item.order_id (sqlParam id) = false := by
      intro item hmem
      obtain ⟨order, homem, hid⟩ := hfk item hmem
      rw [← hid]
      exact horders order homem
    show ({ orders := _, order_items := _ } : Store) = client.committed
    rw [List.filter_eq_self.mpr (fun order hmem => by simp [horders order hmem]),
      List.filter_eq_self.mpr (fun item hmem => by simp [hitems item hmem])]
  · intro order hmem
    simpa using (List.mem_filter.mp hmem).2
  · intro item hmem
    simpa using (List.mem_filter.mp hmem).2

/-- Witness for C16: deleting the order "o1" of two orders, and an id no order has. -/
theorem delete_removes_order_and_items_witness :
    (delete (.str "o1") Client.stocked).1 = .ok true
    ∧ (delete (.str "o1") Client.stocked).2.committed
      = { orders := [orderRowWithId "o2"], order_items := [itemRowOf "i2" "o2"] }
    ∧ (delete (.str "o9") Client.stocked).1 = .ok false
    ∧ (delete (.str "o9") Client.stocked).2.committed = Client.stocked.committed :=
  ⟨(delete_removes_order_and_items (.str "o1") Client.stocked (by decide) rfl).1.trans
      (by rfl),
   by rfl,
   (delete_removes_order_and_items (.str "o9") Client.stocked (by decide) rfl).1.trans
      (by rfl),
   (delete_removes_order_and_items (.str "o9") Client.stocked (by decide) rfl).2.1
      (by decide) (by rfl)⟩

theorem queryOrders_insert_no_fault (c : Client) (w : Store) (values : List JsVal)
    (h : ∀ o ∈ c.faults, o = none) (htxn : c.txn = some w) :
    c.queryOrders orderQuery values
      = (.ok { rows := [orderRowOfValues values], rowCount := 1 },
         { c with
           log := c.log ++ [{ text := orderQuery, values := values }],
           faults := c.faults.tail,
           txn := some { w with orders := w.orders ++ [orderRowOfValues values] } }) := by
  simp [Client.queryOrders, send_ok c _ h, Client.write, htxn]

theorem queryItems_insert_no_fault (c : Client) (w : Store) (values : List JsVal)
    (h : ∀ o ∈ c.faults, o = none) (htxn : c.txn = some w) :
    c.queryItems itemQuery values
      = (.ok { rows := [itemRowOfValues values], rowCount := 1 },
         { c with
           log := c.log ++ [{ text := itemQuery, values := values }],
           faults := c.faults.tail,
           txn := some { w with
                         order_items := w.order_items ++ [itemRowOfValues values] } }) := by
  simp [Client.queryItems, send_ok c _ h, Client.write, htxn]

/-- The loop of `create` when no statement fails: one insert per item, in payload
order, each bound to `row.id`. -/
theorem insertItems_no_fault (row : OrderRow) :
    ∀ (items : List OrderItemData) (orderItems : List OrderItemRow) (c : Client) (w : Store),
      (∀ o ∈ c.faults, o = none) → c.txn = some w →
      insertItems (some row) items orderItems c
        = (.ok (orderItems
              ++ items.map (fun item => itemRowOfValues (itemValues row.id item))),
           { c with
             log := c.log ++ items.map
                      (fun item => { text := itemQuery, values := itemValues row.id item }),
             faults := c.faults.drop items.length,
             txn := some { w with
                           order_items := w.order_items ++ items.map
                             (fun item => itemRowOfValues (itemValues row.id item)) } }) := by
  intro items
  induction items with
  | nil =>
    intro orderItems c w _ htxn
    cases c
    simp only at htxn
    simp [insertItems, htxn]
  | cons item items ih =>
    intro orderItems c w h htxn
    rw [insertItems, queryItems_insert_no_fault c w _ h htxn]
    simp only [List.take_succ_cons, List.take_zero]
    rw [ih _ _ _ (tail_no_fault _ h) rfl]
    simp

theorem truthy_sqlParam (v : JsVal) : (sqlParam v).truthy = v.truthy := by
  cases v <;> rfl

theorem drop_no_fault (fs : List (Option JsError)) (n : Nat) (h : ∀ o ∈ fs, o = none) :
    ∀ o ∈ fs.drop n, o = none :=
  fun o ho => h o (List.mem_of_mem_drop ho)

/-- The `try` block of `create` on a connection without an open transaction when no
statement fails: the statements sent, the tables after `COMMIT`, and the row handed to
`_mapToOrder`. -/
theorem createTry_no_fault (js : Builtins) (orderData : OrderData) (client : Client)
    (hfaults : ∀ o ∈ client.faults, o = none) (htxn : client.txn = none) :
    createTry js orderData client
      = (_mapToOrder js
            { orderRowOfValues (orderValues js orderData) with
              order_items := some (orderData.items.map (fun item => itemRowOfValues
                (itemValues (orderRowOfValues (orderValues js orderData)).id item))) },
         { committed :=
             { orders := client.committed.orders
                 ++ [orderRowOfValues (orderValues js orderData)]
               order_items := client.committed.order_items
                 ++ orderData.items.map (fun item => itemRowOfValues
                      (itemValues (orderRowOfValues (orderValues js orderData)).id item)) }
           txn := none
           log := client.log
             ++ [{ text := "BEGIN", values := [] },
                 { text := orderQuery, values := orderValues js orderData }]
             ++ orderData.items.map (fun item =>
                 { text := itemQuery,
                   values := itemValues (orderRowOfValues (orderValues js orderData)).id item })
             ++ [{ text := "COMMIT", values := [] }]
           faults := (client.faults.tail.tail.drop orderData.items.length).tail
           released := client.released }) := by
  have t1 := tail_no_fault _ hfaults
  have t2 := tail_no_fault _ t1
  have t3 := drop_no_fault _ orderData.items.length t2
  have hne : ("COMMIT" = "BEGIN") = False := by decide
  rw [createTry, query_ok client "BEGIN" hfaults]
  simp only [Client.control, htxn, if_true]
  rw [queryOrders_insert_no_fault _ client.committed _ t1 rfl]
  simp only [List.head?_cons]
  rw [insertItems_no_fault _ _ _ _ _ t2 rfl]
  simp only
  rw [query_ok _ "COMMIT" t3]
  simp [Client.control, hne]

theorem mapOrderItems_of_truthy (js : Builtins) (rows : List OrderItemRow)
    (hne : rows ≠ []) (hfirst : ∀ first ∈ rows.head?, first.id.truthy = true) :
    mapOrderItems js (some rows)
      = .ok (rows.map (fun item =>
          { id := item.id, productId := item.product_id, quantity := item.quantity,
            unitPrice := js.parseFloat item.unit_price,
            totalPrice := js.parseFloat item.total_price, product := item.product })) := by
  cases rows with
  | nil => exact absurd rfl hne
  | cons first rest =>
    have := hfirst first (by simp)
    simp [mapOrderItems, this]

/-- C11: for every payload with `N ≥ 1` items that each carry an id, on a connection
without an open transaction, when no statement fails (and `JSON.parse` accepts what
`JSON.stringify` returns): `create` sends exactly `BEGIN`, one order insert, one item
insert per item in payload order, each bound to the id of the inserted order row, and
`COMMIT`; it returns an `Order` whose items list has exactly `N` entries; and the
committed tables have gained the order row and the `N` item rows. -/
theorem create_inserts_order_and_items (js : Builtins) (orderData : OrderData)
    (client : Client) (hitems : orderData.items ≠ [])
    (hvalid : ∀ item ∈ orderData.items, item.id.truthy = true)
    (hjson : ∀ (v : JsVal) (s : String), js.jsonStringify v = .str s →
      ∃ r, js.jsonParse s = .ok r)
    (hfaults : ∀ o ∈ client.faults, o = none) (htxn : client.txn = none) :
    (∃ order : Order, (create js orderData client).1 = .ok order
      ∧ order.items.length = orderData.items.length)
    ∧ (create js orderData client).2.log
      = client.log
        ++ [{ text := "BEGIN", values := [] },
            { text := orderQuery, values := orderValues js orderData }]
        ++ orderData.items.map (fun item =>
            { text := itemQuery,
              values := itemValues (orderRowOfValues (orderValues js orderData)).id item })
        ++ [{ text := "COMMIT", values := [] }]
    ∧ (create js orderData client).2.committed
      = { orders := client.committed.orders ++ [orderRowOfValues (orderValues js orderData)]
          order_items := client.committed.order_items
            ++ orderData.items.map (fun item => itemRowOfValues
                 (itemValues (orderRowOfValues (orderValues js orderData)).id item)) } := by
  have htry := createTry_no_fault js orderData client hfaults htxn
  have hmap := mapOrderItems_of_truthy js
    (orderData.items.map (fun item => itemRowOfValues
      (itemValues (orderRowOfValues (orderValues js orderData)).id item)))
    (by simpa using hitems)
    (by
      intro first hfirst
      cases hitems' : orderData.items with
      | nil => exact absurd hitems' hitems
      | cons item rest =>
        simp only [hitems', List.map_cons, List.head?_cons, Option.mem_def,
          Option.some.injEq] at hfirst
        subst hfirst
        have hitem := hvalid item (by simp [hitems'])
        simpa [itemRowOfValues, itemValues, truthy_sqlParam] using hitem)
  obtain ⟨b, hb⟩ := parseIfString_sqlParam_ok js orderData.billingAddress hjson
  obtain ⟨sh, hsh⟩ := parseIfString_sqlParam_ok js orderData.shippingAddress hjson
  have hbill : (orderRowOfValues (orderValues js orderData)).billing_address
      = sqlParam (js.jsonStringify orderData.billingAddress) := rfl
  have hship : (orderRowOfValues (orderValues js orderData)).shipping_address
      = sqlParam (js.jsonStringify orderData.shippingAddress) := rfl
  obtain ⟨order, horder, hlen⟩ : ∃ order : Order,
      _mapToOrder js
        { orderRowOfValues (orderValues js orderData) with
          order_items := some (orderData.items.map (fun item => itemRowOfValues
            (itemValues (orderRowOfValues (orderValues js orderData)).id item))) }
        = .ok order ∧ order.items.length = orderData.items.length := by
    simp only [_mapToOrder, hmap, hbill, hship, hb, hsh]
    exact ⟨_, rfl, by simp⟩
  rw [horder] at htry
  refine ⟨⟨order, by simp [create, htry], hlen⟩, by simp [create, htry, Client.release],
    by simp [create, htry, Client.release]⟩

/-- Witness for C11: two items on a fresh connection. -/
theorem create_inserts_order_and_items_witness :
    (∃ order : Order,
      (create sampleBuiltins (sampleOrder [sampleItem "i1", sampleItem "i2"])
        (Client.fresh [])).1 = .ok order
      ∧ order.items.length = 2)
    ∧ ((create sampleBuiltins (sampleOrder [sampleItem "i1", sampleItem "i2"])
        (Client.fresh [])).2.log.map Query.text)
      = ["BEGIN", orderQuery, itemQuery, itemQuery, "COMMIT"] :=
  ⟨(create_inserts_order_and_items sampleBuiltins
      (sampleOrder [sampleItem "i1", sampleItem "i2"]) (Client.fresh [])
      (by decide) (by decide) (fun v s _ => ⟨.obj s, rfl⟩) (by decide) rfl).1,
   by rfl⟩

/-! ## Properties of `findById` -/

theorem mapFirstRow_eq_none (js : Builtins) (rows : List OrderRow) :
    mapFirstRow js rows = .ok none ↔ rows = [] := by
  cases rows with
  | nil => simp [mapFirstRow]
  | cons row rest =>
    cases h : _mapToOrder js row <;> simp [mapFirstRow, h]

theorem findById_fst (js : Builtins) (id : JsVal) (pool : Pool)
    (result : QueryResult OrderRow)
    (hanswer : pool.answer { text := findByIdQuery, values := [id] } = .ok result) :
    (findById js id pool).1 = mapFirstRow js result.rows := by
  simp [findById, Pool.query, hanswer]

theorem mapToOrder_items (js : Builtins) (row : OrderRow)
    (hne : row.order_items ≠ some [])
    (hb : ∃ billing, parseIfString js row.billing_address = .ok billing)
    (hs : ∃ shipping, parseIfString js row.shipping_address = .ok shipping) :
    ∃ order : Order, _mapToOrder js row = .ok order
      ∧ mapOrderItems js row.order_items = .ok order.items := by
  obtain ⟨billing, hb⟩ := hb
  obtain ⟨shipping, hs⟩ := hs
  obtain ⟨items, hitems⟩ : ∃ items, mapOrderItems js row.order_items = .ok items := by
    cases h : row.order_items with
    | none => exact ⟨[], rfl⟩
    | some rows =>
      cases rows with
      | nil => exact absurd h hne
      | cons first others =>
        by_cases ht : first.id.truthy = true
        · simp [mapOrderItems, ht]
        · exact ⟨[], by simp [mapOrderItems, ht]⟩
  simp only [_mapToOrder, hitems, hb, hs]
  exact ⟨_, rfl, rfl⟩

/-- C17, as the code has it: when the query of `findById` returns `result`, `findById`
returns `null` exactly when `result` has no row. For a first row whose `order_items` is
not an empty array and whose address texts parse as JSON it returns an `Order` whose
items list is the empty list when `order_items` is missing or the id of its first
element is falsy (`null` for the placeholder of the aggregate, but also `0` or ""), and
otherwise has one `OrderItem` per element of `order_items`, in order, each with the
element's product snapshot. -/
theorem findById_maps_first_row (js : Builtins) (id : JsVal) (pool : Pool)
    (result : QueryResult OrderRow)
    (hanswer : pool.answer { text := findByIdQuery, values := [id] } = .ok result) :
    ((findById js id pool).1 = .ok none ↔ result.rows = [])
    ∧ (∀ (row : OrderRow) (rest : List OrderRow), result.rows = row :: rest →
        row.order_items ≠ some [] →
        (∃ billing, parseIfString js row.billing_address = .ok billing) →
        (∃ shipping, parseIfString js row.shipping_address = .ok shipping) →
        ∃ order : Order, (findById js id pool).1 = .ok (some order)
          ∧ (row.order_items = none → order.items = [])
          ∧ (∀ first others, row.order_items = some (first :: others) →
              first.id.truthy = false → order.items = [])
          ∧ (∀ first others, row.order_items = some (first :: others) →
              first.id.truthy = true →
              order.items = (first :: others).map (fun item =>
                { id := item.id, productId := item.product_id, quantity := item.quantity,
                  unitPrice := js.parseFloat item.unit_price,
                  totalPrice := js.parseFloat item.total_price,
                  product := item.product }))) := by
  rw [findById_fst js id pool result hanswer]
  refine ⟨mapFirstRow_eq_none js result.rows, ?_⟩
  intro row rest hrows hne hb hs
  rw [hrows]
  obtain ⟨order, horder, hitems⟩ := mapToOrder_items js row hne hb hs
  refine ⟨order, by simp [mapFirstRow, horder], ?_, ?_, ?_⟩
  · intro hnone
    rw [hnone] at hitems
    simpa [mapOrderItems] using hitems.symm
  · intro first others hsome hfalse
    rw [hsome] at hitems
    simpa [mapOrderItems, hfalse] using hitems.symm
  · intro first others hsome htrue
    rw [hsome] at hitems
    simpa [mapOrderItems, htrue] using hitems.symm

/-- Witness for C17: no row, the placeholder of an order without items, and two items. -/
theorem findById_maps_first_row_witness :
    (findById sampleBuiltins (.str "o1") (Pool.answering [])).1 = .ok none
    ∧ (∃ order : Order,
        (findById sampleBuiltins (.str "o1")
          (Pool.answering [joinedRow (some [placeholderItem])])).1 = .ok (some order)
        ∧ order.items = [])
    ∧ (∃ order : Order,
        (findById sampleBuiltins (.str "o1")
          (Pool.answering
            [joinedRow (some [itemRowOf "i1" "o1", itemRowOf "i2" "o1"])])).1
          = .ok (some order)
        ∧ order.items.map (fun item => item.id) = [.str "i1", .str "i2"]) :=
  ⟨(findById_maps_first_row sampleBuiltins (.str "o1") (Pool.answering [])
      { rows := [], rowCount := 0 } rfl).1.mpr rfl,
   ⟨_, by rfl, by rfl⟩,
   ⟨_, by rfl, by rfl⟩⟩

/-- C17 as stated fails: for an order with one item whose id is `0` (or ""), the
aggregate has one element whose id is not `null`, and the items list of the `Order` that
`findById` returns is empty. -/
theorem findById_falsy_item_id_gives_no_items :
    (∃ order : Order,
      (findById sampleBuiltins (.str "o1")
        (Pool.answering
          [joinedRow (some [{ itemRowOf "i1" "o1" with id := .num 0 }])])).1
        = .ok (some order)
      ∧ order.items = [])
    ∧ (∃ order : Order,
      (findById sampleBuiltins (.str "o1")
        (Pool.answering
          [joinedRow (some [{ itemRowOf "i1" "o1" with id := .str "" }])])).1
        = .ok (some order)
      ∧ order.items = []) :=
  ⟨⟨_, by rfl, by rfl⟩, ⟨_, by rfl, by rfl⟩⟩

/-! ## The connection is released -/

theorem control_released (c : Client) (text : String) :
    (c.control text).released = c.released := by
  unfold Client.control
  split_ifs <;> (try split) <;> rfl

theorem write_released (c : Client) (f : Store → Store) :
    (c.write f).released = c.released := by
  unfold Client.write
  split <;> rfl

theorem query_released (c : Client) (text : String) :
    (c.query text).2.released = c.released := by
  rcases hfl : c.faults with _ | ⟨_ | e, fs⟩ <;>
    simp [Client.query, Client.send, hfl, control_released]

theorem queryOrders_released (c : Client) (text : String) (values : List JsVal) :
    (c.queryOrders text values).2.released = c.released := by
  rcases hfl : c.faults with _ | ⟨_ | e, fs⟩ <;>
    simp only [Client.queryOrders, Client.send, hfl, List.head?_nil, List.head?_cons,
      Option.join, Option.bind, List.tail_nil, List.tail_cons] <;>
    split_ifs <;> simp [write_released]

theorem queryItems_released (c : Client) (text : String) (values : List JsVal) :
    (c.queryItems text values).2.released = c.released := by
  rcases hfl : c.faults with _ | ⟨_ | e, fs⟩ <;>
    simp only [Client.queryItems, Client.send, hfl, List.head?_nil, List.head?_cons,
      Option.join, Option.bind, List.tail_nil, List.tail_cons] <;>
    split_ifs <;> simp [write_released]

theorem insertItems_released (order : Option OrderRow) :
    ∀ (items : List OrderItemData) (orderItems : List OrderItemRow) (c : Client),
      (insertItems order items orderItems c).2.released = c.released := by
  intro items
  induction items with
  | nil => intro orderItems c; rfl
  | cons item items ih =>
    intro orderItems c
    cases order with
    | none => rfl
    | some row =>
      have hq := queryItems_released c itemQuery (itemValues row.id item)
      rcases hrun : c.queryItems itemQuery (itemValues row.id item) with ⟨r, c1⟩
      rw [hrun] at hq
      cases r with
      | error e => simpa [insertItems, hrun] using hq
      | ok itemResult =>
        simp only [insertItems, hrun]
        rw [ih]
        exact hq

theorem createTry_released (js : Builtins) (orderData : OrderData) (client : Client) :
    (createTry js orderData client).2.released = client.released := by
  have h1 := query_released client "BEGIN"
  rcases hq1 : client.query "BEGIN" with ⟨r1, c1⟩
  rw [hq1] at h1
  cases r1 with
  | error e => simpa [createTry, hq1] using h1
  | ok u =>
    have h2 := queryOrders_released c1 orderQuery (orderValues js orderData)
    rcases hq2 : c1.queryOrders orderQuery (orderValues js orderData) with ⟨r2, c2⟩
    rw [hq2] at h2
    cases r2 with
    | error e => simpa [createTry, hq1, hq2] using h2.trans h1
    | ok orderResult =>
      have h3 := insertItems_released orderResult.rows.head? orderData.items [] c2
      rcases hq3 : insertItems orderResult.rows.head? orderData.items [] c2 with ⟨r3, c3⟩
      rw [hq3] at h3
      cases r3 with
      | error e => simpa [createTry, hq1, hq2, hq3] using h3.trans (h2.trans h1)
      | ok orderItems =>
        have h4 := query_released c3 "COMMIT"
        rcases hq4 : c3.query "COMMIT" with ⟨r4, c4⟩
        rw [hq4] at h4
        cases r4 with
        | error e => simpa [createTry, hq1, hq2, hq3, hq4] using h4.trans (h3.trans (h2.trans h1))
        | ok u2 => simpa [createTry, hq1, hq2, hq3, hq4] using h4.trans (h3.trans (h2.trans h1))

theorem deleteTry_released (id : JsVal) (client : Client) :
    (deleteTry id client).2.released = client.released := by
  have h1 := query_released client "BEGIN"
  rcases hq1 : client.query "BEGIN" with ⟨r1, c1⟩
  rw [hq1] at h1
  cases r1 with
  | error e => simpa [deleteTry, hq1] using h1
  | ok u =>
    have h2 := queryItems_released c1 deleteItemsQuery [id]
    rcases hq2 : c1.queryItems deleteItemsQuery [id] with ⟨r2, c2⟩
    rw [hq2] at h2
    cases r2 with
    | error e => simpa [deleteTry, hq1, hq2] using h2.trans h1
    | ok itemsResult =>
      have h3 := queryOrders_released c2 deleteOrderQuery [id]
      rcases hq3 : c2.queryOrders deleteOrderQuery [id] with ⟨r3, c3⟩
      rw [hq3] at h3
      cases r3 with
      | error e => simpa [deleteTry, hq1, hq2, hq3] using h3.trans (h2.trans h1)
      | ok result =>
        have h4 := query_released c3 "COMMIT"
        rcases hq4 : c3.query "COMMIT" with ⟨r4, c4⟩
        rw [hq4] at h4
        cases r4 with
        | error e => simpa [deleteTry, hq1, hq2, hq3, hq4] using h4.trans (h3.trans (h2.trans h1))
        | ok u2 => simpa [deleteTry, hq1, hq2, hq3, hq4] using h4.trans (h3.trans (h2.trans h1))

/-- C19: for every payload, every id and every connection, whatever the database
decides for `BEGIN`, the inserts or deletes, `COMMIT` and the `ROLLBACK` of the error
handler, `create` and `delete` release the connection exactly once. -/
theorem create_and_delete_release_once (js : Builtins) (orderData : OrderData) (id : JsVal)
    (client : Client) :
    (create js orderData client).2.released = client.released + 1
    ∧ (delete id client).2.released = client.released + 1 := by
  constructor
  · have h1 := createTry_released js orderData client
    rcases hq1 : createTry js orderData client with ⟨r1, c1⟩
    rw [hq1] at h1
    cases r1 with
    | ok order => simpa [create, hq1, Client.release] using h1
    | error e =>
      have h2 := query_released c1 "ROLLBACK"
      rcases hq2 : c1.query "ROLLBACK" with ⟨r2, c2⟩
      rw [hq2] at h2
      cases r2 <;> simpa [create, hq1, hq2, Client.release] using h2.trans h1
  · have h1 := deleteTry_released id client
    rcases hq1 : deleteTry id client with ⟨r1, c1⟩
    rw [hq1] at h1
    cases r1 with
    | ok deleted => simpa [delete, hq1, Client.release] using h1
    | error e =>
      have h2 := query_released c1 "ROLLBACK"
      rcases hq2 : c1.query "ROLLBACK" with ⟨r2, c2⟩
      rw [hq2] at h2
      cases r2 <;> simpa [delete, hq1, hq2, Client.release] using h2.trans h1

end PostgresOrderRepository

/-! ## Properties of the use cases -/

namespace OrderUseCases

/-- C20: for every repository, when the repository call returns, the use case returns
the same result (`null` included); when it throws an error with message `m`, the use
case throws an error whose message is "Failed to create order: " followed by `m` for
`createOrder`, "Failed to get order: " followed by `m` for `getOrderById`, and
"Failed to get all orders: " followed by `m` for `getAllOrders`. -/
theorem wraps_repository_errors (orderRepository : OrderRepository) :
    (∀ orderData result, orderRepository.create orderData = .ok result →
      createOrder orderRepository orderData = .ok result)
    ∧ (∀ orderData error, orderRepository.create orderData = .error error →
      createOrder orderRepository orderData
        = .error { name := "Error", message := "Failed to create order: " ++ error.message })
    ∧ (∀ id result, orderRepository.findById id = .ok result →
      getOrderById orderRepository id = .ok result)
    ∧ (∀ id error, orderRepository.findById id = .error error →
      getOrderById orderRepository id
        = .error { name := "Error", message := "Failed to get order: " ++ error.message })
    ∧ (∀ result, orderRepository.findAll none = .ok result →
      getAllOrders orderRepository = .ok result)
    ∧ (∀ error, orderRepository.findAll none = .error error →
      getAllOrders orderRepository
        = .error { name := "Error",
                   message := "Failed to get all orders: " ++ error.message }) := by
  refine ⟨?_, ?_, ?_, ?_, ?_, ?_⟩
  · intro orderData result h; simp [createOrder, h]
  · intro orderData error h; simp [createOrder, h]
  · intro id result h; simp [getOrderById, h]
  · intro id error h; simp [getOrderById, h]
  · intro result h; simp [getAllOrders, h]
  · intro error h; simp [getAllOrders, h]

/-- Witness for C20: a repository whose calls throw "connection refused", and one that
finds no order. -/
theorem wraps_repository_errors_witness :
    createOrder (OrderRepository.failing ⟨"Error", "connection refused"⟩) (sampleOrder [])
      = .error { name := "Error", message := "Failed to create order: connection refused" }
    ∧ getOrderById (OrderRepository.failing ⟨"Error", "connection refused"⟩) (.str "o1")
      = .error { name := "Error", message := "Failed to get order: connection refused" }
    ∧ getAllOrders (OrderRepository.failing ⟨"Error", "connection refused"⟩)
      = .error { name := "Error", message := "Failed to get all orders: connection refused" }
    ∧ getOrderById OrderRepository.vacant (.str "o1") = .ok none :=
  ⟨(wraps_repository_errors (OrderRepository.failing ⟨"Error", "connection refused"⟩)).2.1
      (sampleOrder []) ⟨"Error", "connection refused"⟩ rfl,
   (wraps_repository_errors (OrderRepository.failing ⟨"Error", "connection refused"⟩)).2.2.2.1
      (.str "o1") ⟨"Error", "connection refused"⟩ rfl,
   (wraps_repository_errors (OrderRepository.failing ⟨"Error", "connection refused"⟩)).2.2.2.2.2
      ⟨"Error", "connection refused"⟩ rfl,
   (wraps_repository_errors OrderRepository.vacant).2.2.1 (.str "o1") none rfl⟩

end OrderUseCases

/-! ## Properties of the controller -/

namespace OrderController

/-- C21: for each of `getOrderById`, `updateOrderStatus`, `cancelOrder` and
`getOrderTracking`, every service, request and exchange: when the service call returns a
falsy value (`null` in particular), the handler sets status 404, sends the one body
`{success: false, message: "Order not found"}` and does nothing else; when it returns an
entity (any truthy value), the handler sets no status, sends one body with
`success: true` whose `data` is that entity, and does nothing else. -/
theorem not_found_or_success (orderService : OrderService) (req : Request) (res : Exchange)
    (value : JsVal) :
    (orderService.getOrderById req.params.id = .ok value →
      (value.truthy = false → getOrderById orderService req res
        = { res with statusCode := some 404, sent := res.sent ++ [orderNotFound] })
      ∧ (value.truthy = true → getOrderById orderService req res
        = { res with sent := res.sent ++
              [{ success := true, message := none, data := some value,
                 pagination := none }] }))
    ∧ (orderService.updateOrderStatus req.params.id req.body.status req.body.notes
        = .ok value →
      (value.truthy = false → updateOrderStatus orderService req res
        = { res with statusCode := some 404, sent := res.sent ++ [orderNotFound] })
      ∧ (value.truthy = true → updateOrderStatus orderService req res
        = { res with sent := res.sent ++
              [{ success := true, message := some "Order status updated successfully",
                 data := some value, pagination := none }] }))
    ∧ (orderService.cancelOrder req.params.id req.body.reason = .ok value →
      (value.truthy = false → cancelOrder orderService req res
        = { res with statusCode := some 404, sent := res.sent ++ [orderNotFound] })
      ∧ (value.truthy = true → cancelOrder orderService req res
        = { res with sent := res.sent ++
              [{ success := true, message := some "Order cancelled successfully",
                 data := some value, pagination := none }] }))
    ∧ (orderService.getOrderTracking req.params.id = .ok value →
      (value.truthy = false → getOrderTracking orderService req res
        = { res with statusCode := some 404, sent := res.sent ++ [orderNotFound] })
      ∧ (value.truthy = true → getOrderTracking orderService req res
        = { res with sent := res.sent ++
              [{ success := true, message := none, data := some value,
                 pagination := none }] })) := by
  refine ⟨?_, ?_, ?_, ?_⟩
  · intro h
    constructor <;> intro ht <;>
      simp [getOrderById, h, ht, Exchange.status, Exchange.json]
  · intro h
    constructor <;> intro ht <;>
      simp [updateOrderStatus, h, ht, Exchange.status, Exchange.json]
  · intro h
    constructor <;> intro ht <;>
      simp [cancelOrder, h, ht, Exchange.status, Exchange.json]
  · intro h
    constructor <;> intro ht <;>
      simp [getOrderTracking, h, ht, Exchange.status, Exchange.json]

/-- Witness for C21: a service that returns `null`, and one that returns an entity. -/
theorem not_found_or_success_witness :
    getOrderById (OrderService.returning .null) (requestFor "o1") Exchange.fresh
      = { statusCode := some 404,
          sent := [{ success := false, message := some "Order not found", data := none,
                     pagination := none }],
          forwarded := [] }
    ∧ cancelOrder (OrderService.returning (.obj "order o1")) (requestFor "o1") Exchange.fresh
      = { statusCode := none,
          sent := [{ success := true, message := some "Order cancelled successfully",
                     data := some (.obj "order o1"), pagination := none }],
          forwarded := [] } :=
  ⟨(not_found_or_success (OrderService.returning .null) (requestFor "o1") Exchange.fresh
      .null).1 rfl |>.1 rfl,
   (not_found_or_success (OrderService.returning (.obj "order o1")) (requestFor "o1")
      Exchange.fresh (.obj "order o1")).2.2.1 rfl |>.2 rfl⟩

/-- C22: for every handler of the controller, every service, request and exchange: when
the service call throws `error`, the handler hands exactly that error to `next` and
does nothing with `res`; when the service call returns, the handler sends exactly one
response body and does not call `next`. -/
theorem forwards_errors_and_responds_once (parseInt : JsVal → JsVal)
    (orderService : OrderService) (req : Request) (res : Exchange) :
    (∀ error,
      (orderService.getOrders
          { page := parseInt (if req.query.page = .undefined then .num 1 else req.query.page),
            limit := parseInt
              (if req.query.limit = .undefined then .num 10 else req.query.limit),
            status := req.query.status, userId := req.query.userId } = .error error →
        res.forwardedOnly (getOrders parseInt orderService req res) error)
      ∧ (orderService.getOrderById req.params.id = .error error →
        res.forwardedOnly (getOrderById orderService req res) error)
      ∧ (orderService.createOrder req.body.value = .error error →
        res.forwardedOnly (createOrder orderService req res) error)
      ∧ (orderService.updateOrderStatus req.params.id req.body.status req.body.notes
          = .error error →
        res.forwardedOnly (updateOrderStatus orderService req res) error)
      ∧ (orderService.cancelOrder req.params.id req.body.reason = .error error →
        res.forwardedOnly (cancelOrder orderService req res) error)
      ∧ (orderService.getOrderTracking req.params.id = .error error →
        res.forwardedOnly (getOrderTracking orderService req res) error)
      ∧ (orderService.processPayment req.params.id req.body.value = .error error →
        res.forwardedOnly (processPayment orderService req res) error)
      ∧ (orderService.calculateOrderTotals
          { items := req.body.items, shippingAddress := req.body.shippingAddress,
            promoCode := req.body.promoCode } = .error error →
        res.forwardedOnly (calculateOrderTotals orderService req res) error))
    ∧ (∀ page,
      orderService.getOrders
          { page := parseInt (if req.query.page = .undefined then .num 1 else req.query.page),
            limit := parseInt
              (if req.query.limit = .undefined then .num 10 else req.query.limit),
            status := req.query.status, userId := req.query.userId } = .ok page →
        res.respondedOnce (getOrders parseInt orderService req res))
    ∧ (∀ value,
      (orderService.getOrderById req.params.id = .ok value →
        res.respondedOnce (getOrderById orderService req res))
      ∧ (orderService.createOrder req.body.value = .ok value →
        res.respondedOnce (createOrder orderService req res))
      ∧ (orderService.updateOrderStatus req.params.id req.body.status req.body.notes
          = .ok value →
        res.respondedOnce (updateOrderStatus orderService req res))
      ∧ (orderService.cancelOrder req.params.id req.body.reason = .ok value →
        res.respondedOnce (cancelOrder orderService req res))
      ∧ (orderService.getOrderTracking req.params.id = .ok value →
        res.respondedOnce (getOrderTracking orderService req res))
      ∧ (orderService.processPayment req.params.id req.body.value = .ok value →
        res.respondedOnce (processPayment orderService req res))
      ∧ (orderService.calculateOrderTotals
          { items := req.body.items, shippingAddress := req.body.shippingAddress,
            promoCode := req.body.promoCode } = .ok value →
        res.respondedOnce (calculateOrderTotals orderService req res))) := by
  refine ⟨fun error => ⟨?_, ?_, ?_, ?_, ?_, ?_, ?_, ?_⟩, ?_,
    fun value => ⟨?_, ?_, ?_, ?_, ?_, ?_, ?_⟩⟩
  · intro h; simp [Exchange.forwardedOnly, getOrders, h, Exchange.next]
  · intro h; simp [Exchange.forwardedOnly, getOrderById, h, Exchange.next]
  · intro h; simp [Exchange.forwardedOnly, createOrder, h, Exchange.next]
  · intro h; simp [Exchange.forwardedOnly, updateOrderStatus, h, Exchange.next]
  · intro h; simp [Exchange.forwardedOnly, cancelOrder, h, Exchange.next]
  · intro h; simp [Exchange.forwardedOnly, getOrderTracking, h, Exchange.next]
  · intro h; simp [Exchange.forwardedOnly, processPayment, h, Exchange.next]
  · intro h; simp [Exchange.forwardedOnly, calculateOrderTotals, h, Exchange.next]
  · intro page h; simp [Exchange.respondedOnce, getOrders, h, Exchange.json]
  · intro h
    cases ht : value.truthy <;>
      simp [Exchange.respondedOnce, getOrderById, h, ht, Exchange.json, Exchange.status]
  · intro h; simp [Exchange.respondedOnce, createOrder, h, Exchange.json, Exchange.status]
  · intro h
    cases ht : value.truthy <;>
      simp [Exchange.respondedOnce, updateOrderStatus, h, ht, Exchange.json, Exchange.status]
  · intro h
    cases ht : value.truthy <;>
      simp [Exchange.respondedOnce, cancelOrder, h, ht, Exchange.json, Exchange.status]
  · intro h
    cases ht : value.truthy <;>
      simp [Exchange.respondedOnce, getOrderTracking, h, ht, Exchange.json, Exchange.status]
  · intro h; simp [Exchange.respondedOnce, processPayment, h, Exchange.json]
  · intro h; simp [Exchange.respondedOnce, calculateOrderTotals, h, Exchange.json]

/-- Witness for C22: a service that throws "database down", and one that returns an
entity. -/
theorem forwards_errors_and_responds_once_witness :
    getOrders (fun v => v) (OrderService.failing ⟨"Error", "database down"⟩)
        (requestFor "o1") Exchange.fresh
      = { statusCode := none, sent := [], forwarded := [⟨"Error", "database down"⟩] }
    ∧ Exchange.fresh.respondedOnce
        (createOrder (OrderService.returning (.obj "order o1")) (requestFor "o1")
          Exchange.fresh) :=
  ⟨(forwards_errors_and_responds_once (fun v => v)
      (OrderService.failing ⟨"Error", "database down"⟩) (requestFor "o1")
      Exchange.fresh).1 ⟨"Error", "database down"⟩ |>.1 rfl,
   (forwards_errors_and_responds_once (fun v => v)
      (OrderService.returning (.obj "order o1")) (requestFor "o1")
      Exchange.fresh).2.2 (.obj "order o1") |>.2.1 rfl⟩

end OrderController

/-! ## Quantities of the cart when every added quantity is positive -/

theorem modifyFirst_forall {α : Type} (p : α → Bool) (f : α → α) (P : α → Prop)
    (xs : List α) (hxs : ∀ x ∈ xs, P x) (hf : ∀ x ∈ xs, P (f x)) :
    ∀ x ∈ modifyFirst p f xs, P x := by
  induction xs with
  | nil => intro x hx; simp [modifyFirst] at hx
  | cons a as ih =>
    intro x hx
    by_cases ha : p a = true
    · simp only [modifyFirst, ha, if_true, List.mem_cons] at hx
      rcases hx with rfl | hx
      · exact hf a (List.mem_cons_self _ _)
      · exact hxs x (List.mem_cons_of_mem _ hx)
    · have ha' : p a = false := by simpa using ha
      simp only [modifyFirst, ha', Bool.false_eq_true, if_false, List.mem_cons] at hx
      rcases hx with rfl | hx
      · exact hxs _ (List.mem_cons_self _ _)
      · exact ih (fun y hy => hxs y (List.mem_cons_of_mem _ hy))
          (fun y hy => hf y (List.mem_cons_of_mem _ hy)) x hx

theorem Cart.step_quantities_pos (c : Cart) (op : CartOp) (hop : op.addsPositive = true)
    (h : ∀ item ∈ c.items, 1 ≤ item.quantity) :
    ∀ item ∈ (c.step op).items, 1 ≤ item.quantity := by
  cases op with
  | addItem p q =>
    have hq : 1 ≤ q.getD 1 := by simpa [CartOp.addsPositive] using hop
    simp only [Cart.step, Cart.addItem]
    split
    · apply modifyFirst_forall _ _ _ _ h
      intro x hx
      have := h x hx
      simp only [CartItem.increaseQuantity, Option.getD_some]
      omega
    · intro item hitem
      simp only [List.mem_append, List.mem_singleton] at hitem
      rcases hitem with hitem | rfl
      · exact h item hitem
      · simpa [CartItem.new] using hq
  | removeItem productId =>
    intro item hitem
    simp only [Cart.step, Cart.removeItem] at hitem
    exact h item (List.mem_filter.mp hitem).1
  | updateQuantity productId q =>
    simp only [Cart.step, Cart.updateQuantity]
    split
    · split
      · intro item hitem
        simp only [Cart.removeItem] at hitem
        exact h item (List.mem_filter.mp hitem).1
      · rename_i hq
        apply modifyFirst_forall _ _ _ _ h
        intro x _
        simp only [CartItem.setQuantity]
        omega
    · exact h
  | clear =>
    intro item hitem
    simp [Cart.step, Cart.clear] at hitem

theorem Cart.run_quantities_pos (ops : List CartOp) (c : Cart)
    (hops : ∀ op ∈ ops, op.addsPositive = true)
    (h : ∀ item ∈ c.items, 1 ≤ item.quantity) :
    ∀ item ∈ (c.run ops).items, 1 ≤ item.quantity := by
  induction ops generalizing c with
  | nil => exact h
  | cons op ops ih =>
    exact ih (c.step op) (fun o ho => hops o (List.mem_cons_of_mem _ ho))
      (Cart.step_quantities_pos c op (hops op (List.mem_cons_self _ _)) h)

theorem sum_quantities_pos (items : List CartItem) (h : ∀ item ∈ items, 1 ≤ item.quantity) :
    (items.length : Int) ≤ (items.map (fun item => item.quantity)).sum := by
  induction items with
  | nil => simp
  | cons item items ih =>
    have h1 := h item (List.mem_cons_self _ _)
    have h2 := ih (fun x hx => h x (List.mem_cons_of_mem _ hx))
    simp only [List.length_cons, List.map_cons, List.sum_cons]
    push_cast
    omega

theorem Cart.getTotalItems_eq_sum (c : Cart) :
    c.getTotalItems = (c.items.map (fun item => item.quantity)).sum := by
  have h := foldl_add_eq_sum (fun (item : CartItem) => item.quantity) c.items 0
  simpa [Cart.getTotalItems] using h

/-- C23: for every sequence of `addItem`, `removeItem`, `updateQuantity` and `clear`
calls on the empty cart in which every `addItem` quantity is a positive integer (an
omitted quantity is 1), every item of the resulting cart has a quantity of at least 1. -/
theorem Cart.quantities_at_least_one (ops : List CartOp)
    (hops : ∀ op ∈ ops, op.addsPositive = true) :
    ∀ item ∈ (Cart.empty.run ops).items, 1 ≤ item.quantity :=
  Cart.run_quantities_pos ops Cart.empty hops (by simp [Cart.empty])

/-- Witness for C23: two additions, an update to 0, an update to a negative quantity
and an update to 3; the item left for "p2" has quantity 3. -/
theorem Cart.quantities_at_least_one_witness :
    ({ id := "p2", product := ⟨"p2", 5⟩, quantity := 3 } : CartItem)
        ∈ (Cart.empty.run [.addItem ⟨"p1", 10⟩ (some 2), .addItem ⟨"p2", 5⟩ none,
            .updateQuantity "p1" 0, .addItem ⟨"p3", 7⟩ (some 1), .updateQuantity "p3" (-5),
            .updateQuantity "p2" 3]).items
    ∧ 1 ≤ ({ id := "p2", product := ⟨"p2", 5⟩, quantity := 3 } : CartItem).quantity :=
  ⟨by decide,
   Cart.quantities_at_least_one
     [.addItem ⟨"p1", 10⟩ (some 2), .addItem ⟨"p2", 5⟩ none,
       .updateQuantity "p1" 0, .addItem ⟨"p3", 7⟩ (some 1), .updateQuantity "p3" (-5),
       .updateQuantity "p2" 3]
     (by decide) _ (by decide)⟩

/-- C24: for every sequence of `addItem`, `removeItem`, `updateQuantity` and `clear`
calls on the empty cart in which every `addItem` quantity is a positive integer:
`isEmpty()` is true exactly when `getTotalItems()` is 0, where `getTotalItems()` is the
sum of the item quantities; in `getSummary()`, `isEmpty` is true exactly when
`itemCount` is 0, exactly when `totalItems` is 0; and after `clear()` the cart is empty
with total items 0 and total price 0. -/
theorem Cart.emptiness_signals_agree (ops : List CartOp)
    (hops : ∀ op ∈ ops, op.addsPositive = true) :
    ((Cart.empty.run ops).isEmpty = true ↔ (Cart.empty.run ops).getTotalItems = 0)
    ∧ (Cart.empty.run ops).getTotalItems
        = ((Cart.empty.run ops).items.map (fun item => item.quantity)).sum
    ∧ ((Cart.empty.run ops).getSummary.isEmpty = true
        ↔ (Cart.empty.run ops).getSummary.itemCount = 0)
    ∧ ((Cart.empty.run ops).getSummary.itemCount = 0
        ↔ (Cart.empty.run ops).getSummary.totalItems = 0)
    ∧ (Cart.empty.run ops).clear.isEmpty = true
    ∧ (Cart.empty.run ops).clear.getTotalItems = 0
    ∧ (Cart.empty.run ops).clear.getTotalPrice = 0 := by
  have hpos := Cart.run_quantities_pos ops Cart.empty hops (by simp [Cart.empty])
  have hsum := Cart.getTotalItems_eq_sum (Cart.empty.run ops)
  have hle := sum_quantities_pos (Cart.empty.run ops).items hpos
  have hcount : (Cart.empty.run ops).items.length = 0
      ↔ (Cart.empty.run ops).getTotalItems = 0 := by
    constructor
    · intro h0
      have hnil : (Cart.empty.run ops).items = [] := List.length_eq_zero.mp h0
      simp [hsum, hnil]
    · intro h0
      rw [hsum] at h0
      rw [h0] at hle
      omega
  refine ⟨?_, hsum, ?_, ?_, rfl, rfl, rfl⟩
  · simpa [Cart.isEmpty] using hcount
  · simp [Cart.getSummary, Cart.isEmpty]
  · simpa [Cart.getSummary] using hcount

/-- Witness for C24: a cart emptied by an update to 0, and a cart with two items. -/
theorem Cart.emptiness_signals_agree_witness :
    ((Cart.empty.run [.addItem ⟨"p1", 10⟩ (some 2), .updateQuantity "p1" 0]).isEmpty = true
      ↔ (Cart.empty.run [.addItem ⟨"p1", 10⟩ (some 2),
            .updateQuantity "p1" 0]).getTotalItems = 0)
    ∧ ((Cart.empty.run [.addItem ⟨"p1", 10⟩ (some 2), .addItem ⟨"p2", 5⟩ none]).isEmpty = true
      ↔ (Cart.empty.run [.addItem ⟨"p1", 10⟩ (some 2),
            .addItem ⟨"p2", 5⟩ none]).getTotalItems = 0) :=
  ⟨(Cart.emptiness_signals_agree _ (by decide)).1,
   (Cart.emptiness_signals_agree _ (by decide)).1⟩

end GiftShop
